import Mathlib

/-!
Verification development for the MCON-apps repository: a collection of
browser-based continuum-mechanics teaching visualizations.  Each app is a
React component with a per-frame animation loop; the numeric/physics update
rules of those loops are embedded here (positions, velocities and masses as
exact rationals where the source uses only field arithmetic, reals where the
source uses transcendental functions), and the spec's testable properties are
settled against them.
-/

namespace MCON

open Topology Filter

/-! ### DiscreteContinuous app (src/src/apps/DiscreteContinuous/DiscreteContinuous.tsx)

Particles move `x += vx`, then reflect at the walls with position clamped to
the box `[PARTICLE_RADIUS, size - PARTICLE_RADIUS]`.  The global average
density is `N / area * 1000`, computed once at initialization. -/

structure DCParticle where
  x : ℚ
  y : ℚ
  vx : ℚ
  vy : ℚ
deriving DecidableEq

/-- Constant `PARTICLE_RADIUS = 1.8` from DiscreteContinuous.tsx. -/
def PARTICLE_RADIUS : ℚ := 1.8

/-- One particle's move-and-bounce update from the `animate` loop
(DiscreteContinuous.tsx lines 106-131): advance by the velocity, then for each
axis, if the new coordinate left `[R, size - R]`, negate the velocity component
and clamp the coordinate with `max R (min (size - R) ·)`. -/
def moveBounce (width height : ℚ) (p : DCParticle) : DCParticle :=
  let x1 := p.x + p.vx
  let y1 := p.y + p.vy
  let bx := x1 < PARTICLE_RADIUS ∨ x1 > width - PARTICLE_RADIUS
  let by' := y1 < PARTICLE_RADIUS ∨ y1 > height - PARTICLE_RADIUS
  { x := if bx then max PARTICLE_RADIUS (min (width - PARTICLE_RADIUS) x1) else x1
    y := if by' then max PARTICLE_RADIUS (min (height - PARTICLE_RADIUS) y1) else y1
    vx := if bx then -p.vx else p.vx
    vy := if by' then -p.vy else p.vy }

/-- The particle-state part of one `animate` frame: every particle is moved and
bounced; none are created or destroyed. -/
def animateParticles (width height : ℚ) (ps : List DCParticle) : List DCParticle :=
  ps.map (moveBounce width height)

/-- Global average density `(N / area) * 1000` from `initSimulation`
(DiscreteContinuous.tsx line 78), with the `area > 0` guard. -/
def globalAvgDensity (n : ℕ) (width height : ℚ) : ℚ :=
  if width * height > 0 then ((n : ℚ) / (width * height)) * 1000 else 0

/-- The box invariant the clamped coordinates satisfy. -/
def inBox (width height : ℚ) (p : DCParticle) : Prop :=
  PARTICLE_RADIUS ≤ p.x ∧ p.x ≤ width - PARTICLE_RADIUS ∧
    PARTICLE_RADIUS ≤ p.y ∧ p.y ≤ height - PARTICLE_RADIUS

/-! ### Euler-Lagrange app particle management (src/unnamed/part_000, loop lines 329-340)

Each frame the particle array is topped up to `particleDensity` with fresh
particles, or truncated (`splice(particleDensity)`) down to it; afterwards the
followed particle, when present and not already in the array, is pushed. -/

def topUp {P : Type} (particleDensity : ℕ) (spawn : ℕ → P) (ps : List P) : List P :=
  if ps.length < particleDensity then
    ps ++ (List.range (particleDensity - ps.length)).map spawn
  else if ps.length > particleDensity then ps.take particleDensity
  else ps

def manageParticles {P : Type} [DecidableEq P] (particleDensity : ℕ) (spawn : ℕ → P)
    (followed : Option P) (ps : List P) : List P :=
  let ps1 := topUp particleDensity spawn ps
  match followed with
  | some f => if f ∈ ps1 then ps1 else ps1 ++ [f]
  | none => ps1

lemma topUp_length {P : Type} (density : ℕ) (spawn : ℕ → P) (ps : List P) :
    (topUp density spawn ps).length = density := by
  simp only [topUp]
  split_ifs with h h2
  · simp only [List.length_append, List.length_map, List.length_range]
    omega
  · simp only [List.length_take]
    omega
  · omega

lemma moveBounce_mem_box (width height : ℚ)
    (hw : 2 * PARTICLE_RADIUS ≤ width) (hh : 2 * PARTICLE_RADIUS ≤ height)
    (p : DCParticle) : inBox width height (moveBounce width height p) := by
  have hw' : PARTICLE_RADIUS ≤ width - PARTICLE_RADIUS := by linarith
  have hh' : PARTICLE_RADIUS ≤ height - PARTICLE_RADIUS := by linarith
  simp only [moveBounce, inBox]
  constructor
  · split_ifs with hx
    · exact le_max_left _ _
    · push_neg at hx; exact hx.1
  refine ⟨?_, ?_, ?_⟩
  · split_ifs with hx
    · exact max_le hw' (min_le_left _ _)
    · push_neg at hx; exact hx.2
  · split_ifs with hy
    · exact le_max_left _ _
    · push_neg at hy; exact hy.1
  · split_ifs with hy
    · exact max_le hh' (min_le_left _ _)
    · push_neg at hy; exact hy.2

lemma animateParticles_length (width height : ℚ) (ps : List DCParticle) :
    (animateParticles width height ps).length = ps.length := by
  simp [animateParticles]

/-- Claim C5: in the discrete-vs-continuum density sampler, every animation
frame preserves the number of particles (none are created or destroyed by the
frame update) and keeps every particle inside the box (positions clamped to
the radius-inset box, velocities reflected at the walls), so the global
average density `N / area * 1000` computed at initialization stays constant
across frames. -/
theorem C5_frame_preserves_density (width height : ℚ)
    (hw : 2 * PARTICLE_RADIUS ≤ width) (hh : 2 * PARTICLE_RADIUS ≤ height)
    (ps : List DCParticle) :
    (∀ n : ℕ, ((animateParticles width height)^[n] ps).length = ps.length) ∧
    (∀ p ∈ animateParticles width height ps, inBox width height p) ∧
    (∀ n : ℕ,
      globalAvgDensity ((animateParticles width height)^[n] ps).length width height =
        globalAvgDensity ps.length width height) := by
  have hlen : ∀ n : ℕ, ((animateParticles width height)^[n] ps).length = ps.length := by
    intro n
    induction n with
    | zero => rfl
    | succ k ih => rw [Function.iterate_succ_apply', animateParticles_length, ih]
  refine ⟨hlen, ?_, fun n => by rw [hlen n]⟩
  intro p hp
  obtain ⟨q, _, rfl⟩ := List.mem_map.mp hp
  exact moveBounce_mem_box width height hw hh q

/-- Witness for C5 at a concrete box and particle list. -/
theorem C5_frame_preserves_density_witness :
    (2 * PARTICLE_RADIUS ≤ (400 : ℚ) ∧ 2 * PARTICLE_RADIUS ≤ (300 : ℚ)) ∧
    ((∀ n : ℕ,
        ((animateParticles 400 300)^[n] [⟨1, 1, 100, -50⟩]).length =
          ([⟨1, 1, 100, -50⟩] : List DCParticle).length) ∧
      (∀ p ∈ animateParticles 400 300 [⟨1, 1, 100, -50⟩], inBox 400 300 p) ∧
      (∀ n : ℕ,
        globalAvgDensity ((animateParticles 400 300)^[n] [⟨1, 1, 100, -50⟩]).length 400 300 =
          globalAvgDensity ([⟨1, 1, 100, -50⟩] : List DCParticle).length 400 300)) :=
  ⟨⟨by norm_num [PARTICLE_RADIUS], by norm_num [PARTICLE_RADIUS]⟩,
    C5_frame_preserves_density 400 300 (by norm_num [PARTICLE_RADIUS])
      (by norm_num [PARTICLE_RADIUS]) [⟨1, 1, 100, -50⟩]⟩

/-- Claim C9 fails on the code: with particle density 2, an empty particle
array and a followed particle not in the array, the frame's array-management
step tops the array up to 2 fresh particles and then pushes the followed
particle, ending the frame with 3 particles, which exceeds the configured
density. -/
theorem C9_counterexample :
    ¬ ((manageParticles 2 (fun i => i) (some 100) ([] : List ℕ)).length ≤ 2) := by
  decide

/-- Claim C9, amended: at the end of every animation frame the tracked
particle array's length is bounded by the configured particle-density setting
plus one; it equals the configured density exactly whenever no followed
particle exists.  (The loop first tops up or truncates the array to the
configured density and afterwards pushes the followed particle when it is not
already a member, so that frame ends with density + 1 particles.) -/
theorem C9_particle_array_bound {P : Type} [DecidableEq P] (density : ℕ)
    (spawn : ℕ → P) (followed : Option P) (ps : List P) :
    (manageParticles density spawn followed ps).length ≤ density + 1 ∧
    (followed = none → (manageParticles density spawn followed ps).length = density) := by
  have h1 := topUp_length density spawn ps
  constructor
  · cases followed with
    | none => simpa only [manageParticles] using h1.le.trans (by omega)
    | some f =>
      simp only [manageParticles]
      split_ifs with hmem
      · exact h1.le.trans (by omega)
      · rw [List.length_append, h1]
        simp
  · rintro rfl
    simpa only [manageParticles] using h1

/-- Witness for C9's amended statement at a concrete density and array. -/
theorem C9_particle_array_bound_witness :
    (manageParticles 2 (fun i => i) none [5, 6, 7]).length ≤ 3 ∧
      (manageParticles 2 (fun i => i) none ([5, 6, 7] : List ℕ)).length = 2 :=
  ⟨(C9_particle_array_bound 2 (fun i => i) none [5, 6, 7]).1,
    (C9_particle_array_bound 2 (fun i => i) none [5, 6, 7]).2 rfl⟩

/-! ### MeanFreePath app (src/src/apps/MeanFreePath/MeanFreePath.tsx)

A controllable player and moving obstacles in a box.  Constants and the
collision / frame update are embedded over the rationals; the square root
appearing in the collision normal (`Math.sqrt(distSq)`) is passed in as an
explicit argument `dist`, constrained in the theorems by
`dist * dist = distSq` and `0 < dist`. -/

structure MFPBody where
  x : ℚ
  y : ℚ
  vx : ℚ
  vy : ℚ
  radius : ℚ
  mass : ℚ
deriving DecidableEq

def FRICTION : ℚ := 0.97

def PLAYER_FORCE_BASE : ℚ := 0.4

/-- Player-obstacle collision handling from `update`
(MeanFreePath.tsx lines 225-260): on overlap (`distSq < minDist * minDist`)
the collision counter is incremented (third component); when additionally the
relative velocity along the normal is negative an impulse is applied — the
player's response damped by `responseFactor = 0.25`, the obstacle's not — and
the bodies are separated along the normal with factor `sep = 0.5`.  `dist`
stands for `Math.sqrt(distSq)`. -/
def collide (player p : MFPBody) (dist : ℚ) : MFPBody × MFPBody × ℕ :=
  let dx := player.x - p.x
  let dy := player.y - p.y
  let distSq := dx * dx + dy * dy
  let minDist := player.radius + p.radius
  if distSq < minDist * minDist then
    let nx := dx / dist
    let ny := dy / dist
    let dvx := player.vx - p.vx
    let dvy := player.vy - p.vy
    let dot := dvx * nx + dvy * ny
    if dot < 0 then
      let impulse := 2 * dot / (player.mass + p.mass)
      let responseFactor : ℚ := 0.25
      let overlap := minDist - dist
      let sep : ℚ := 0.5
      ({ player with
          vx := player.vx - impulse * p.mass * nx * responseFactor
          vy := player.vy - impulse * p.mass * ny * responseFactor
          x := player.x + nx * overlap * sep
          y := player.y + ny * overlap * sep },
        { p with
          vx := p.vx + impulse * player.mass * nx
          vy := p.vy + impulse * player.mass * ny
          x := p.x - nx * overlap * sep
          y := p.y - ny * overlap * sep },
        1)
    else (player, p, 1)
  else (player, p, 0)

/-- Total momentum component along a collision normal `(nx, ny)`. -/
def normalMomentum (a b : MFPBody) (nx ny : ℚ) : ℚ :=
  a.mass * (a.vx * nx + a.vy * ny) + b.mass * (b.vx * nx + b.vy * ny)

/-- Claim C2 fails on the code: in a concrete equal-mass collision (unit
masses, unit separation along the x-axis, approach speed 1, so the overlap
test passes, `dist = 1` is the exact square root, and the relative normal
velocity is negative) the impulse update changes the total normal momentum
from -1 to -7/4, because the player's half of the impulse is damped by
`responseFactor = 0.25` while the obstacle receives the full impulse. -/
theorem C2_counterexample :
    ((1 : ℚ) * 1 =
        ((100 : ℚ) - 99) * (100 - 99) + ((100 : ℚ) - 100) * (100 - 100)) ∧
    (((100 : ℚ) - 99) * (100 - 99) + ((100 : ℚ) - 100) * (100 - 100) <
        ((5 / 2 : ℚ) + 5 / 2) * (5 / 2 + 5 / 2)) ∧
    (((-1 : ℚ) - 0) * ((100 - 99) / 1) + ((0 : ℚ) - 0) * ((100 - 100) / 1) < 0) ∧
    normalMomentum (collide ⟨100, 100, -1, 0, 5/2, 1⟩ ⟨99, 100, 0, 0, 5/2, 1⟩ 1).1
        (collide ⟨100, 100, -1, 0, 5/2, 1⟩ ⟨99, 100, 0, 0, 5/2, 1⟩ 1).2.1 1 0 ≠
      normalMomentum ⟨100, 100, -1, 0, 5/2, 1⟩ ⟨99, 100, 0, 0, 5/2, 1⟩ 1 0 := by
  refine ⟨by norm_num, by norm_num, by norm_num, ?_⟩
  norm_num [collide, normalMomentum]

/-- Claim C2, amended: in the player-obstacle collision response, for a
collision between two equal-mass bodies (overlap detected, `dist` the exact
positive square root of the squared distance, relative normal velocity `dot`
negative), the impulse update does not conserve the total normal momentum:
it changes it by exactly `(3/4) * m * dot`, because the obstacle receives the
full elastic impulse while the player's share is damped by the factor 0.25. -/
theorem C2_normal_momentum_change (player p : MFPBody) (m dist : ℚ)
    (hm1 : player.mass = m) (hm2 : p.mass = m) (hm0 : 0 < m) (hdist : 0 < dist)
    (hd2 : dist * dist =
      (player.x - p.x) * (player.x - p.x) + (player.y - p.y) * (player.y - p.y))
    (hover : (player.x - p.x) * (player.x - p.x) + (player.y - p.y) * (player.y - p.y) <
      (player.radius + p.radius) * (player.radius + p.radius))
    (hdot : (player.vx - p.vx) * ((player.x - p.x) / dist) +
        (player.vy - p.vy) * ((player.y - p.y) / dist) < 0) :
    normalMomentum (collide player p dist).1 (collide player p dist).2.1
        ((player.x - p.x) / dist) ((player.y - p.y) / dist) =
      normalMomentum player p ((player.x - p.x) / dist) ((player.y - p.y) / dist) +
        3 / 4 * m * ((player.vx - p.vx) * ((player.x - p.x) / dist) +
          (player.vy - p.vy) * ((player.y - p.y) / dist)) ∧
    normalMomentum (collide player p dist).1 (collide player p dist).2.1
        ((player.x - p.x) / dist) ((player.y - p.y) / dist) ≠
      normalMomentum player p ((player.x - p.x) / dist) ((player.y - p.y) / dist) := by
  have hdne : dist ≠ 0 := ne_of_gt hdist
  have hmne : player.mass + p.mass ≠ 0 := by rw [hm1, hm2]; positivity
  have hcol : collide player p dist =
      ({ player with
          vx := player.vx - 2 * ((player.vx - p.vx) * ((player.x - p.x) / dist) +
              (player.vy - p.vy) * ((player.y - p.y) / dist)) / (player.mass + p.mass) *
              p.mass * ((player.x - p.x) / dist) * (1/4)
          vy := player.vy - 2 * ((player.vx - p.vx) * ((player.x - p.x) / dist) +
              (player.vy - p.vy) * ((player.y - p.y) / dist)) / (player.mass + p.mass) *
              p.mass * ((player.y - p.y) / dist) * (1/4)
          x := player.x + (player.x - p.x) / dist *
              ((player.radius + p.radius) - dist) * (1/2)
          y := player.y + (player.y - p.y) / dist *
              ((player.radius + p.radius) - dist) * (1/2) },
        { p with
          vx := p.vx + 2 * ((player.vx - p.vx) * ((player.x - p.x) / dist) +
              (player.vy - p.vy) * ((player.y - p.y) / dist)) / (player.mass + p.mass) *
              player.mass * ((player.x - p.x) / dist)
          vy := p.vy + 2 * ((player.vx - p.vx) * ((player.x - p.x) / dist) +
              (player.vy - p.vy) * ((player.y - p.y) / dist)) / (player.mass + p.mass) *
              player.mass * ((player.y - p.y) / dist)
          x := p.x - (player.x - p.x) / dist *
              ((player.radius + p.radius) - dist) * (1/2)
          y := p.y - (player.y - p.y) / dist *
              ((player.radius + p.radius) - dist) * (1/2) },
        1) := by
    simp only [collide]
    rw [if_pos hover, if_pos hdot]
    norm_num
  have h2m : m + m ≠ 0 := by positivity
  have heq : normalMomentum (collide player p dist).1 (collide player p dist).2.1
      ((player.x - p.x) / dist) ((player.y - p.y) / dist) =
    normalMomentum player p ((player.x - p.x) / dist) ((player.y - p.y) / dist) +
      3 / 4 * m * ((player.vx - p.vx) * ((player.x - p.x) / dist) +
        (player.vy - p.vy) * ((player.y - p.y) / dist)) := by
    have hS : (player.x - p.x) / dist * ((player.x - p.x) / dist) +
        (player.y - p.y) / dist * ((player.y - p.y) / dist) = 1 := by
      field_simp
      linear_combination -hd2
    have hinv : (m + m)⁻¹ * (m + m) = 1 := inv_mul_cancel₀ h2m
    rw [hcol]
    simp only [normalMomentum, hm1, hm2]
    set a := (player.x - p.x) / dist with ha
    set b := (player.y - p.y) / dist with hb
    linear_combination
      (3 / 4 * m * ((player.vx - p.vx) * a + (player.vy - p.vy) * b) * 2 * m *
        (m + m)⁻¹) * hS +
      (3 / 4 * m * ((player.vx - p.vx) * a + (player.vy - p.vy) * b)) * hinv
  refine ⟨heq, ?_⟩
  rw [heq]
  have hneg : 3 / 4 * m * ((player.vx - p.vx) * ((player.x - p.x) / dist) +
      (player.vy - p.vy) * ((player.y - p.y) / dist)) < 0 :=
    mul_neg_of_pos_of_neg (by positivity) hdot
  intro habs
  linarith [habs, hneg]

/-- Witness for C2's amended statement at the concrete equal-mass collision. -/
theorem C2_normal_momentum_change_witness :
    normalMomentum (collide ⟨100, 100, -1, 0, 5/2, 1⟩ ⟨99, 100, 0, 0, 5/2, 1⟩ 1).1
        (collide ⟨100, 100, -1, 0, 5/2, 1⟩ ⟨99, 100, 0, 0, 5/2, 1⟩ 1).2.1
        ((100 - 99) / 1) ((100 - 100) / 1) =
      normalMomentum ⟨100, 100, -1, 0, 5/2, 1⟩ ⟨99, 100, 0, 0, 5/2, 1⟩
        ((100 - 99) / 1) ((100 - 100) / 1) +
        3 / 4 * 1 * ((-1 - 0) * ((100 - 99) / 1) + (0 - 0) * ((100 - 100) / 1)) ∧
    normalMomentum (collide ⟨100, 100, -1, 0, 5/2, 1⟩ ⟨99, 100, 0, 0, 5/2, 1⟩ 1).1
        (collide ⟨100, 100, -1, 0, 5/2, 1⟩ ⟨99, 100, 0, 0, 5/2, 1⟩ 1).2.1
        ((100 - 99) / 1) ((100 - 100) / 1) ≠
      normalMomentum ⟨100, 100, -1, 0, 5/2, 1⟩ ⟨99, 100, 0, 0, 5/2, 1⟩
        ((100 - 99) / 1) ((100 - 100) / 1) :=
  C2_normal_momentum_change ⟨100, 100, -1, 0, 5/2, 1⟩ ⟨99, 100, 0, 0, 5/2, 1⟩ 1 1
    rfl rfl (by norm_num) (by norm_num) (by norm_num) (by norm_num) (by norm_num)

/-- One full `update` frame of the playing state for the player and a single
obstacle (MeanFreePath.tsx lines 181-261): player force (here the normalized
input direction `(fx, fy)`, zero when no arrow key is held), friction, motion
and wall damping with factor -0.5; obstacle motion and elastic wall reflection
with clamping; then the player-obstacle collision check.  The third component
is the collision-counter increment of the frame. -/
def frameStep (width height fx fy : ℚ) (boost : Bool) (player obstacle : MFPBody)
    (dist : ℚ) : MFPBody × MFPBody × ℕ :=
  let forceMag := PLAYER_FORCE_BASE * (if boost then 2 else 1)
  let pvx := (player.vx + fx / player.mass * forceMag) * FRICTION
  let pvy := (player.vy + fy / player.mass * forceMag) * FRICTION
  let px := player.x + pvx
  let py := player.y + pvy
  let pvx1 := if px < player.radius then pvx * (-0.5) else pvx
  let px1 := if px < player.radius then player.radius else px
  let pvx2 := if px1 > width - player.radius then pvx1 * (-0.5) else pvx1
  let px2 := if px1 > width - player.radius then width - player.radius else px1
  let pvy1 := if py < player.radius then pvy * (-0.5) else pvy
  let py1 := if py < player.radius then player.radius else py
  let pvy2 := if py1 > height - player.radius then pvy1 * (-0.5) else pvy1
  let py2 := if py1 > height - player.radius then height - player.radius else py1
  let player1 : MFPBody :=
    { player with x := px2, y := py2, vx := pvx2, vy := pvy2 }
  let ox := obstacle.x + obstacle.vx
  let oy := obstacle.y + obstacle.vy
  let obx := ox < obstacle.radius ∨ ox > width - obstacle.radius
  let oby := oy < obstacle.radius ∨ oy > height - obstacle.radius
  let obstacle1 : MFPBody :=
    { obstacle with
      x := if obx then max obstacle.radius (min (width - obstacle.radius) ox) else ox
      y := if oby then max obstacle.radius (min (height - obstacle.radius) oy) else oy
      vx := if obx then -obstacle.vx else obstacle.vx
      vy := if oby then -obstacle.vy else obstacle.vy }
  collide player1 obstacle1 dist

/-- Iterated frames with no player input, accumulating the collision counter. -/
def frames (width height : ℚ) (player obstacle : MFPBody) (dist : ℚ) :
    ℕ → MFPBody × MFPBody × ℕ
  | 0 => (player, obstacle, 0)
  | n + 1 =>
    let s := frames width height player obstacle dist n
    let r := frameStep width height 0 0 false s.1 s.2.1 dist
    (r.1, r.2.1, s.2.2 + r.2.2)

/-- Concrete resting player used for the sustained-overlap scenario of C10. -/
def c10Player : MFPBody := ⟨100, 100, 0, 0, 5/2, 1⟩

/-- Concrete resting obstacle overlapping the player, one unit to its right. -/
def c10Obstacle : MFPBody := ⟨101, 100, 0, 0, 5/2, 1⟩

/-- Claim C10: the collision counter increments on every frame in which the
player-obstacle overlap test (squared distance less than squared combined
radii) succeeds, including frames where the relative velocity along the
collision normal is non-negative, in which case no impulse and no positional
separation are applied; consequently a single sustained overlap (here: a
resting player and a resting overlapping obstacle, away from the walls, with
no input) increments the counter by one on every consecutive frame while the
bodies never move. -/
theorem C10_counter_increments_on_overlap :
    (∀ (player p : MFPBody) (dist : ℚ),
      ((player.x - p.x) * (player.x - p.x) + (player.y - p.y) * (player.y - p.y) <
          (player.radius + p.radius) * (player.radius + p.radius) →
        (collide player p dist).2.2 = 1) ∧
      ((player.x - p.x) * (player.x - p.x) + (player.y - p.y) * (player.y - p.y) <
          (player.radius + p.radius) * (player.radius + p.radius) →
        0 ≤ (player.vx - p.vx) * ((player.x - p.x) / dist) +
            (player.vy - p.vy) * ((player.y - p.y) / dist) →
        collide player p dist = (player, p, 1))) ∧
    (∀ n : ℕ, frames 400 300 c10Player c10Obstacle 1 n = (c10Player, c10Obstacle, n)) := by
  have hstep : frameStep 400 300 0 0 false c10Player c10Obstacle 1 =
      (c10Player, c10Obstacle, 1) := by
    norm_num [frameStep, collide, c10Player, c10Obstacle, FRICTION, PLAYER_FORCE_BASE]
  constructor
  · intro player p dist
    constructor
    · intro hover
      simp only [collide]
      rw [if_pos hover]
      split_ifs <;> rfl
    · intro hover hdot
      simp only [collide]
      rw [if_pos hover, if_neg (not_lt.mpr hdot)]
  · intro n
    induction n with
    | zero => rfl
    | succ k ih =>
      show (let s := frames 400 300 c10Player c10Obstacle 1 k
        let r := frameStep 400 300 0 0 false s.1 s.2.1 1
        (r.1, r.2.1, s.2.2 + r.2.2)) = _
      rw [ih]
      simp only [hstep]

/-- Witness for C10 at the concrete overlapping resting configuration. -/
theorem C10_counter_increments_on_overlap_witness :
    (collide c10Player c10Obstacle 1).2.2 = 1 ∧
      collide c10Player c10Obstacle 1 = (c10Player, c10Obstacle, 1) :=
  ⟨(C10_counter_increments_on_overlap.1 c10Player c10Obstacle 1).1
      (by norm_num [c10Player, c10Obstacle]),
    (C10_counter_increments_on_overlap.1 c10Player c10Obstacle 1).2
      (by norm_num [c10Player, c10Obstacle]) (by norm_num [c10Player, c10Obstacle])⟩

/-- Straight-line displacement of the player from its fixed start position
`(PLAYER_RADIUS + 20, PLAYER_RADIUS + 20) = (22.5, 22.5)` computed in
`endGame` (MeanFreePath.tsx lines 129-152). -/
noncomputable def endGameDist (px py : ℝ) : ℝ :=
  Real.sqrt ((px - (2.5 + 20)) ^ 2 + (py - (2.5 + 20)) ^ 2)

/-- Rounding to two decimal places, modelling
`parseFloat(mfp.toFixed(2))` applied to a non-negative finite value. -/
noncomputable def toFixed2 (x : ℝ) : ℝ := (round (100 * x) : ℤ) / 100

/-- The stored mean-free-path metric of `endGame`: for a positive collision
count, the displacement divided by the count, rounded to two decimals; for a
zero count the quotient is `Infinity`, stored as the sentinel `-1`. -/
noncomputable def endGameMfp (px py : ℝ) (collisions : ℕ) : ℝ :=
  if 0 < collisions then toFixed2 (endGameDist px py / collisions) else -1

/-- The end screen renders the infinity symbol exactly when the stored metric
is the sentinel `-1` (MeanFreePath.tsx line 436). -/
def mfpShownAsInfinity (v : ℝ) : Prop := v = -1

/-- Claim C6 fails on the code as literally stated: with the player ending at
(25.5, 26.5) — displacement exactly 5 — and 3 collisions, the reported metric
is `toFixed(2)`-rounded to 1.67, which differs from the exact quotient 5/3. -/
theorem C6_counterexample :
    endGameMfp 25.5 26.5 3 = 167 / 100 ∧
      endGameMfp 25.5 26.5 3 ≠ endGameDist 25.5 26.5 / 3 := by
  have h5 : endGameDist 25.5 26.5 = 5 := by
    unfold endGameDist
    rw [show ((25.5 : ℝ) - (2.5 + 20)) ^ 2 + ((26.5 : ℝ) - (2.5 + 20)) ^ 2 = 5 ^ 2 by
      norm_num]
    exact Real.sqrt_sq (by norm_num)
  have hround : round ((500 : ℝ) / 3) = 167 := by
    rw [round_eq]
    rw [show (500 : ℝ) / 3 + 1 / 2 = 1003 / 6 by norm_num]
    rw [Int.floor_eq_iff]
    norm_num
  have hval : endGameMfp 25.5 26.5 3 = 167 / 100 := by
    rw [endGameMfp, if_pos (by norm_num), h5, toFixed2]
    rw [show (100 : ℝ) * (5 / (3 : ℕ)) = 500 / 3 by norm_num, hround]
    norm_num
  refine ⟨hval, ?_⟩
  rw [hval, h5]
  norm_num

/-- Claim C6, amended: when the game ends, the stored mean-free-path metric
equals the straight-line displacement of the player from its fixed start
position divided by the collision counter and then rounded to two decimal
places by `toFixed(2)` (hence within 1/200 of the exact quotient), and when
the collision counter is zero the metric is the infinity sentinel `-1`, which
the end screen renders as the infinity symbol. -/
theorem C6_mfp_reported (px py : ℝ) (c : ℕ) :
    (0 < c →
      endGameMfp px py c = toFixed2 (endGameDist px py / c) ∧
        |endGameMfp px py c - endGameDist px py / c| ≤ 1 / 200) ∧
    (c = 0 → endGameMfp px py c = -1 ∧ mfpShownAsInfinity (endGameMfp px py c)) := by
  constructor
  · intro hc
    have he : endGameMfp px py c = toFixed2 (endGameDist px py / c) := by
      rw [endGameMfp, if_pos hc]
    refine ⟨he, ?_⟩
    rw [he]
    have hdiff : toFixed2 (endGameDist px py / c) - endGameDist px py / c =
        ((round (100 * (endGameDist px py / c)) : ℤ) -
          100 * (endGameDist px py / c)) / 100 := by
      rw [toFixed2]
      ring
    rw [hdiff, abs_div, abs_of_pos (by norm_num : (0:ℝ) < 100)]
    rw [abs_sub_comm]
    have hb := abs_sub_round (100 * (endGameDist px py / c))
    linarith [hb]
  · intro hc
    subst hc
    refine ⟨?_, ?_⟩
    · rw [endGameMfp, if_neg (by norm_num)]
    · rw [mfpShownAsInfinity, endGameMfp, if_neg (by norm_num)]

/-- Witness for C6's amended statement at a concrete end-of-game position with
three collisions, and at the zero-collision case. -/
theorem C6_mfp_reported_witness :
    (endGameMfp 25.5 26.5 3 = toFixed2 (endGameDist 25.5 26.5 / ((3 : ℕ) : ℝ)) ∧
      |endGameMfp 25.5 26.5 3 - endGameDist 25.5 26.5 / ((3 : ℕ) : ℝ)| ≤ 1 / 200) ∧
    (endGameMfp 0 0 0 = -1 ∧ mfpShownAsInfinity (endGameMfp 0 0 0)) :=
  ⟨(C6_mfp_reported 25.5 26.5 3).1 (by norm_num), (C6_mfp_reported 0 0 0).2 rfl⟩

/-! ### Velocity-field kinematics app (src/unnamed/part_002)

The user-entered expressions are evaluated by a generated JavaScript function;
its result is an IEEE-style value: a finite number (modelled exactly as a
rational), a signed infinity, or NaN.  `evaluateMath` wraps the call in
try/catch and applies `isNaN(val) ? 0 : val`.  The pathline update adds
`u * effectiveDt` to the particle position and respawns particles whose
position leaves `|x| > 6 ∨ |y| > 6`. -/

inductive JSNum where
  | num : ℚ → JSNum
  | posInf : JSNum
  | negInf : JSNum
  | nan : JSNum
deriving DecidableEq

/-- IEEE-754 style multiplication on the modelled JavaScript values (finite
arithmetic is exact; overflow of finite doubles is not modelled). -/
def JSNum.mul : JSNum → JSNum → JSNum
  | .num a, .num b => .num (a * b)
  | .num a, .posInf => if 0 < a then .posInf else if a < 0 then .negInf else .nan
  | .num a, .negInf => if 0 < a then .negInf else if a < 0 then .posInf else .nan
  | .posInf, .num b => if 0 < b then .posInf else if b < 0 then .negInf else .nan
  | .negInf, .num b => if 0 < b then .negInf else if b < 0 then .posInf else .nan
  | .posInf, .posInf => .posInf
  | .posInf, .negInf => .negInf
  | .negInf, .posInf => .negInf
  | .negInf, .negInf => .posInf
  | .nan, _ => .nan
  | _, .nan => .nan

/-- IEEE-754 style addition on the modelled JavaScript values. -/
def JSNum.add : JSNum → JSNum → JSNum
  | .num a, .num b => .num (a + b)
  | .num _, .posInf => .posInf
  | .posInf, .num _ => .posInf
  | .num _, .negInf => .negInf
  | .negInf, .num _ => .negInf
  | .posInf, .posInf => .posInf
  | .negInf, .negInf => .negInf
  | .posInf, .negInf => .nan
  | .negInf, .posInf => .nan
  | .nan, _ => .nan
  | _, .nan => .nan

/-- JavaScript `Math.abs`. -/
def jsAbs : JSNum → JSNum
  | .num a => .num |a|
  | .posInf => .posInf
  | .negInf => .posInf
  | .nan => .nan

/-- JavaScript `>` comparison (false whenever NaN is involved). -/
def jsGt : JSNum → JSNum → Bool
  | .num a, .num b => b < a
  | .num _, .posInf => false
  | .posInf, .num _ => true
  | .num _, .negInf => true
  | .negInf, .num _ => false
  | .posInf, .posInf => false
  | .negInf, .negInf => false
  | .posInf, .negInf => true
  | .negInf, .posInf => false
  | .nan, _ => false
  | _, .nan => false

/-- JavaScript global `isNaN` on a number value: true exactly for NaN — in
particular `isNaN(Infinity)` is false. -/
def jsIsNaN : JSNum → Bool
  | .nan => true
  | _ => false

/-- The expression-evaluation wrapper `evaluateMath` (part_002 lines 6-21):
the raw result of the generated function (or an exception, the `.error` case)
is filtered by `return isNaN(val) ? 0 : val`, and the catch handler returns 0.
Only NaN and exceptions are clamped; infinities pass through. -/
def evaluateMath (raw : Except Unit JSNum) : JSNum :=
  match raw with
  | .error _ => .num 0
  | .ok val => if jsIsNaN val then .num 0 else val

structure VFParticle where
  x : JSNum
  y : JSNum
deriving DecidableEq

/-- One pathline update of a particle from `animate` (part_002 lines
276-293): add `u * effectiveDt` and `v * effectiveDt` to the position, then
respawn the particle (at fresh random in-domain coordinates `rx, ry`, passed
explicitly here) when the new position satisfies the out-of-bounds test
`Math.abs(p.x) > 6 || Math.abs(p.y) > 6`.  `ur, vr` are the raw
field-evaluation results fed to `evaluateMath`. -/
def pathlineStep (ur vr : Except Unit JSNum) (dt rx ry : ℚ) (p : VFParticle) :
    VFParticle :=
  let u := evaluateMath ur
  let v := evaluateMath vr
  let x1 := p.x.add (u.mul (.num dt))
  let y1 := p.y.add (v.mul (.num dt))
  if jsGt (jsAbs x1) (.num 6) || jsGt (jsAbs y1) (.num 6) then ⟨.num rx, .num ry⟩
  else ⟨x1, y1⟩

/-- Claim C3 fails on the code: when the vector-field evaluation yields
positive Infinity, `evaluateMath` returns it unclamped (JavaScript
`isNaN(Infinity)` is false), the frame displacement `u * dt` is Infinity
rather than zero, and the infinite value is added to the particle's
position. -/
theorem C3_counterexample :
    evaluateMath (.ok .posInf) = .posInf ∧
      (evaluateMath (.ok .posInf)).mul (.num (3/200)) ≠ .num 0 ∧
      (JSNum.num 0).add ((evaluateMath (.ok .posInf)).mul (.num (3/200))) ≠ .num 0 := by
  have hmul : (evaluateMath (.ok .posInf)).mul (.num (3/200)) = .posInf := by
    norm_num [evaluateMath, jsIsNaN, JSNum.mul]
  have hadd : (JSNum.num 0).add ((evaluateMath (.ok .posInf)).mul (.num (3/200))) =
      .posInf := by
    rw [hmul]
    rfl
  refine ⟨rfl, ?_, ?_⟩
  · rw [hmul]
    decide
  · rw [hadd]
    decide

/-- Claim C3, amended: whenever evaluating the vector field yields NaN or
throws, `evaluateMath` returns 0, so the particle's displacement for that
frame is zero and its position is unchanged by that component; a non-finite
(infinite) evaluation however is returned unclamped and is added to the
position, which becomes infinite, and the particle is then respawned at a
fresh in-domain position by the same frame's out-of-bounds test, so the
non-finite value never propagates to subsequent frames and never surfaces an
error. -/
theorem C3_nonfinite_handling (dt rx ry a b : ℚ) (hdt : 0 < dt) :
    (∀ raw : Except Unit JSNum, raw = .error () ∨ raw = .ok .nan →
      evaluateMath raw = .num 0 ∧
        (evaluateMath raw).mul (.num dt) = .num 0 ∧
        (JSNum.num a).add ((evaluateMath raw).mul (.num dt)) = .num a) ∧
    (∀ vr : Except Unit JSNum,
      pathlineStep (.ok .posInf) vr dt rx ry ⟨.num a, .num b⟩ = ⟨.num rx, .num ry⟩) := by
  constructor
  · rintro raw (rfl | rfl)
    · exact ⟨rfl, by simp [evaluateMath, JSNum.mul], by simp [evaluateMath, JSNum.mul, JSNum.add]⟩
    · exact ⟨rfl, by simp [evaluateMath, jsIsNaN, JSNum.mul], by
        simp [evaluateMath, jsIsNaN, JSNum.mul, JSNum.add]⟩
  · intro vr
    have hu : evaluateMath (.ok .posInf) = .posInf := rfl
    have hx1 : (JSNum.num a).add ((evaluateMath (.ok .posInf)).mul (.num dt)) = .posInf := by
      rw [hu]
      show (JSNum.num a).add (if 0 < dt then .posInf else if dt < 0 then .negInf else .nan) =
        .posInf
      rw [if_pos hdt]
      rfl
    simp only [pathlineStep, hx1]
    rfl

/-- Witness for C3's amended statement at a NaN evaluation and an Infinity
evaluation with concrete step size, position and respawn point. -/
theorem C3_nonfinite_handling_witness :
    (evaluateMath (.ok .nan) = .num 0 ∧
      (evaluateMath (.ok .nan)).mul (.num (3/200)) = .num 0 ∧
      (JSNum.num 2).add ((evaluateMath (.ok .nan)).mul (.num (3/200))) = .num 2) ∧
    pathlineStep (.ok .posInf) (.ok (.num 1)) (3/200) 1 (-1) ⟨.num 2, .num 3⟩ =
      ⟨.num 1, .num (-1)⟩ :=
  ⟨(C3_nonfinite_handling (3/200) 1 (-1) 2 3 (by norm_num)).1 (.ok .nan) (Or.inr rfl),
    (C3_nonfinite_handling (3/200) 1 (-1) 2 3 (by norm_num)).2 (.ok (.num 1))⟩

/-! ### Velocity-field pathline integration, rotation preset (src/unnamed/part_002)

The rotation preset is `u = "-y"`, `v = "x"` (part_002 lines 24-31); the
pathline update in `animate` is a forward-Euler step
`p.x += u * effectiveDt; p.y += v * effectiveDt` with
`effectiveDt = BASE_DT * simSpeed = 0.015` at the default speed.  One full
revolution `t = 2*pi` is first completed after 419 steps
(418 * 0.015 < 2*pi < 419 * 0.015).  The step is linear, so its 419-fold
iterate is multiplication by the complex number `(1 + 0.015 i)^419`, computed
exactly below with integers scaled by `200^n` (0.015 = 3/200). -/

def rotation_u (x y t : ℚ) : ℚ := -y

def rotation_v (x y t : ℚ) : ℚ := x

def BASE_DT : ℚ := 0.015

/-- One forward-Euler pathline step of the rotation preset: both velocity
components are evaluated at the old position, then added scaled by `dt`. -/
def pathlineEuler (dt : ℚ) (p : ℚ × ℚ) : ℚ × ℚ :=
  (p.1 + rotation_u p.1 p.2 0 * dt, p.2 + rotation_v p.1 p.2 0 * dt)

/-- Scaled-integer form of the Euler iteration: after `n` steps from `(1, 0)`
the particle is at `(a, b) / 200 ^ n`. -/
def intRotAux : ℕ → ℤ × ℤ → ℤ × ℤ
  | 0, p => p
  | n + 1, p => intRotAux n (p.1 * 200 - p.2 * 3, p.1 * 3 + p.2 * 200)

def intRot (n : ℕ) : ℤ × ℤ := intRotAux n (1, 0)

lemma intRotAux_add (m n : ℕ) (p : ℤ × ℤ) :
    intRotAux (m + n) p = intRotAux n (intRotAux m p) := by
  induction m generalizing p with
  | zero => rw [Nat.zero_add]; rfl
  | succ k ih =>
    have h : k + 1 + n = (k + n) + 1 := by omega
    rw [h]
    exact ih (p.1 * 200 - p.2 * 3, p.1 * 3 + p.2 * 200)

lemma intRot_succ (n : ℕ) :
    intRot (n + 1) =
      ((intRot n).1 * 200 - (intRot n).2 * 3, (intRot n).1 * 3 + (intRot n).2 * 200) := by
  show intRotAux (n + 1) (1, 0) = _
  rw [intRotAux_add n 1]
  rfl
set_option maxRecDepth 2000 in
lemma intRotChunk1 :
    intRotAux 100 ((1 : ℤ), (0 : ℤ)) =
      ((9082826796484095278339102689311673595575860063427130159268278237545158805469127284414014144131489536019994355738526550476951854375809413829864612410730266798071721605579708263519693060705918671487527788643953931085808378085522001 : ℤ),
       (127876895513008903616186946292697565425567211871181524213344348402420916252759295339471907618983127294555128678305272575858003944940245584984842912595867119099532092179985563058075748661536430740208886216687392679481333019986660000 : ℤ)) := by
  decide
set_option maxRecDepth 2000 in
lemma intRotChunk2 :
    intRotAux 100 ((9082826796484095278339102689311673595575860063427130159268278237545158805469127284414014144131489536019994355738526550476951854375809413829864612410730266798071721605579708263519693060705918671487527788643953931085808378085522001 : ℤ), (127876895513008903616186946292697565425567211871181524213344348402420916252759295339471907618983127294555128678305272575858003944940245584984842912595867119099532092179985563058075748661536430740208886216687392679481333019986660000 : ℤ)) =
      ((-16270002663430067134014586743565378105357095083969973677916425462637740056994441630449630790052319501903339744353759015617776761872776730388444756128703191695498016306094473358440590037416417668556198560822080315276914886801219074532586791302872584015585131023487842149467316540845545428530510930378206508256801822032366644977087674896850736163714015574664544521446687998051702387317949668218831594509697453000064908568026365473480052242218680641015186944955999 : ℤ),
       (2322967386433508075356388984229137473899296763239587221178828884779480528017956740084188123382176200473239200589073015792396668522753314894257284078362021960521873526420650899506348755711096828330927808394710970814835331202046408078181104501022268105851155126054058480364305445590792680950076458418270217452818609286489736566050910459352064367146739530800480110862862424139390001059962696316755424429109390147644504576040769512767511410704236508224313013320000 : ℤ)) := by
  decide
set_option maxRecDepth 2000 in
lemma intRotChunk3 :
    intRotAux 100 ((-16270002663430067134014586743565378105357095083969973677916425462637740056994441630449630790052319501903339744353759015617776761872776730388444756128703191695498016306094473358440590037416417668556198560822080315276914886801219074532586791302872584015585131023487842149467316540845545428530510930378206508256801822032366644977087674896850736163714015574664544521446687998051702387317949668218831594509697453000064908568026365473480052242218680641015186944955999 : ℤ), (2322967386433508075356388984229137473899296763239587221178828884779480528017956740084188123382176200473239200589073015792396668522753314894257284078362021960521873526420650899506348755711096828330927808394710970814835331202046408078181104501022268105851155126054058480364305445590792680950076458418270217452818609286489736566050910459352064367146739530800480110862862424139390001059962696316755424429109390147644504576040769512767511410704236508224313013320000 : ℤ)) =
      ((-444831473925355303189252014050039266540956989997866568521890919220559080810324098252900194505495567954016689038974411055181679766254505933899344051782926159107481846755011746296368652568726047219750153496213504688331836644075421907955577290260755868031388261179244444157098284564371221080608698360680522375942811251040930155468900204584366104323235284270267564204067440764908069311341398722769618582917713645035528496787950642049265202073883953950837947983230825520237940083511585231328535699161526658937338228623658119494344315884355187845422754539412887403799516727075083536423106008528817746388152653704497014615612145933771771815168468501545839251209357508766280582003505283647091433999 : ℤ),
       (-2059458320162966371375396868341574594233672328519654284006542546279959504197492521419207069276066045473059544139913060582694093803728142094651428304389043608270247852304321597526375416392591435870279976321021020562594716925759484102450457910758196376171342320062433776503813695355987607512541415650168443441435318491526597363954795640961014535737046507645815531145059497869818715261947753349481218222406171070142732251523547472918081290792815115842790275584852612223584650624810898098774147863478876753016593671670367804137631925193187268787125910859054581626603386697363314750062830975126948033683416271778774491797129727292704462230214630113864021926281380838351841942545371231800920020000 : ℤ)) := by
  decide
set_option maxRecDepth 2000 in
lemma intRotChunk4 :
    intRotAux 100 ((-444831473925355303189252014050039266540956989997866568521890919220559080810324098252900194505495567954016689038974411055181679766254505933899344051782926159107481846755011746296368652568726047219750153496213504688331836644075421907955577290260755868031388261179244444157098284564371221080608698360680522375942811251040930155468900204584366104323235284270267564204067440764908069311341398722769618582917713645035528496787950642049265202073883953950837947983230825520237940083511585231328535699161526658937338228623658119494344315884355187845422754539412887403799516727075083536423106008528817746388152653704497014615612145933771771815168468501545839251209357508766280582003505283647091433999 : ℤ), (-2059458320162966371375396868341574594233672328519654284006542546279959504197492521419207069276066045473059544139913060582694093803728142094651428304389043608270247852304321597526375416392591435870279976321021020562594716925759484102450457910758196376171342320062433776503813695355987607512541415650168443441435318491526597363954795640961014535737046507645815531145059497869818715261947753349481218222406171070142732251523547472918081290792815115842790275584852612223584650624810898098774147863478876753016593671670367804137631925193187268787125910859054581626603386697363314750062830975126948033683416271778774491797129727292704462230214630113864021926281380838351841942545371231800920020000 : ℤ)) =
      ((259316809189587755163128193011478810255830230286951134857434076969391555403588459766679636042584550759001842767496091292321747003872195234082846934047820018240783438810048618279006742535641750699664107385817305930523837325553253047082828318676011193146306095406780136802869360451194320147036544685667357137907012678111624948222466076839467493177209853036237480641672996181364097137385310638410475496820495645845645544260789742562897662660532710730587303198557548054429112197992746517670035156591172792848805369073930180974263473372816931348736593474585312839272450948471951319842427182321679894561863025725857129463275164595514150538939920327442328830392154886973346292433449956707986166879264283432746805241617666526282172404192943954642657843081862161037242055080563415113148490765245871085319369734203840043204605712562588417107273352818481424792915827504474144855413900109741262885246032466180898463116046045646088001 : ℤ),
       (-75589371128668716769546534553165904220405991404026785407642801702507158478023672492378478463452081946857086207541459009576544055872902403892736905266815695372364745981304252600002626924087643060173123137736713731481774023565039595439104171186339685776127971626231781868942718393419036851852854612864195494627269595218463399872833211755050601790429751311145904018936459326177931955600948102812099912560121115775301398780807467444306290144168302116455304310387194430450981916208839059048101380048449040833659033973556044703187805037119218979242414500310181088338671823992800966794710979649263290004165197428592419300566387987795705252417850922038029941312688110433069170317126531985388526545588449181894415983017358732239614265796134327791953765221360291571308984581438113762238305681368308300207513187166631478297599234189262984242712470718338710643791100586491380876101561785787593196181573024913433835394221001813360000 : ℤ)) := by
  decide
set_option maxRecDepth 2000 in
lemma intRotChunk5 :
    intRotAux 19 ((259316809189587755163128193011478810255830230286951134857434076969391555403588459766679636042584550759001842767496091292321747003872195234082846934047820018240783438810048618279006742535641750699664107385817305930523837325553253047082828318676011193146306095406780136802869360451194320147036544685667357137907012678111624948222466076839467493177209853036237480641672996181364097137385310638410475496820495645845645544260789742562897662660532710730587303198557548054429112197992746517670035156591172792848805369073930180974263473372816931348736593474585312839272450948471951319842427182321679894561863025725857129463275164595514150538939920327442328830392154886973346292433449956707986166879264283432746805241617666526282172404192943954642657843081862161037242055080563415113148490765245871085319369734203840043204605712562588417107273352818481424792915827504474144855413900109741262885246032466180898463116046045646088001 : ℤ), (-75589371128668716769546534553165904220405991404026785407642801702507158478023672492378478463452081946857086207541459009576544055872902403892736905266815695372364745981304252600002626924087643060173123137736713731481774023565039595439104171186339685776127971626231781868942718393419036851852854612864195494627269595218463399872833211755050601790429751311145904018936459326177931955600948102812099912560121115775301398780807467444306290144168302116455304310387194430450981916208839059048101380048449040833659033973556044703187805037119218979242414500310181088338671823992800966794710979649263290004165197428592419300566387987795705252417850922038029941312688110433069170317126531985388526545588449181894415983017358732239614265796134327791953765221360291571308984581438113762238305681368308300207513187166631478297599234189262984242712470718338710643791100586491380876101561785787593196181573024913433835394221001813360000 : ℤ)) =
      ((14191785706442538175002548163669269609923530451918033852536714520789324767395914948566150223468422377026013572208185753941567093064664637432129460420069708171951723729741202101222902311286730904042602255434713301588347704093824740345561798103471676394109975287297723200135691822642038282453146834643838680217568665072008006744135682364889017590701708675417039305758483777098778026057963732168524814021226635091825574987263885790294322931150679516890632941593885540205376940876699717942174885675698984793408183875749855077095458157576969760607966358818486430096194770690022761436834311554337473917712262315673517162115515171728240028924285918028675625497586979171729273781762274981843389538032998115482894479474189491489198450622007534506579080024190077673931895444401846282386232648713990197788867066354042885338469011872037503600447678590843156819045177138455698697482373380494039481706964601870491720854479280549946652234757719630473105412415483833484433673421800 : ℤ),
       (19064993069689924871842024349035837909490667037257801494498280398810716375894057929197158405278604469921432527393892168801645018821486642653070426192622505323357065240446334994611450370230746344268555578155013888270895098533849372395835434886511939613822302523981139960839118443114158094748075587186865241415331081214034490875005657669231620502208520630492937133690596481982324955771035823821102928725183191180721003252025854100026140656336198293520638099822411493862749962873687698708929752684873454433467985952710385832169079084450692201047661370711601521531465524201724770775357092956737572779653414944481286542192568540447155660217173677673349703554573042557815318930291319725962845074491787198228542460375348322835862331243237925103938015704844132419555020407854566643675965464959197049515802535298251988708097703944911194880457086212268743100733357777769442796916832049712392566293623408291943191609631331162116693050065622827449573064478158997123173562533 : ℤ)) := by
  decide

lemma intRot_419 :
    intRot 419 =
      ((14191785706442538175002548163669269609923530451918033852536714520789324767395914948566150223468422377026013572208185753941567093064664637432129460420069708171951723729741202101222902311286730904042602255434713301588347704093824740345561798103471676394109975287297723200135691822642038282453146834643838680217568665072008006744135682364889017590701708675417039305758483777098778026057963732168524814021226635091825574987263885790294322931150679516890632941593885540205376940876699717942174885675698984793408183875749855077095458157576969760607966358818486430096194770690022761436834311554337473917712262315673517162115515171728240028924285918028675625497586979171729273781762274981843389538032998115482894479474189491489198450622007534506579080024190077673931895444401846282386232648713990197788867066354042885338469011872037503600447678590843156819045177138455698697482373380494039481706964601870491720854479280549946652234757719630473105412415483833484433673421800 : ℤ),
       (19064993069689924871842024349035837909490667037257801494498280398810716375894057929197158405278604469921432527393892168801645018821486642653070426192622505323357065240446334994611450370230746344268555578155013888270895098533849372395835434886511939613822302523981139960839118443114158094748075587186865241415331081214034490875005657669231620502208520630492937133690596481982324955771035823821102928725183191180721003252025854100026140656336198293520638099822411493862749962873687698708929752684873454433467985952710385832169079084450692201047661370711601521531465524201724770775357092956737572779653414944481286542192568540447155660217173677673349703554573042557815318930291319725962845074491787198228542460375348322835862331243237925103938015704844132419555020407854566643675965464959197049515802535298251988708097703944911194880457086212268743100733357777769442796916832049712392566293623408291943191609631331162116693050065622827449573064478158997123173562533 : ℤ)) := by
  show intRotAux 419 (1, 0) = _
  have h : (419 : ℕ) = 100 + 100 + 100 + 100 + 19 := rfl
  rw [h, intRotAux_add, intRotAux_add, intRotAux_add, intRotAux_add]
  rw [intRotChunk1, intRotChunk2, intRotChunk3, intRotChunk4, intRotChunk5]

set_option maxRecDepth 2000 in
lemma pow200_419 :
    (200 : ℤ) ^ 419 =
      13538426240824291306535225508511150895685727907108479370949607327219830604519656362499875029805369033678668022272478378071162880000000000000000000000000000000000000000000000000000000000000000000000000000000000000000000000000000000000000000000000000000000000000000000000000000000000000000000000000000000000000000000000000000000000000000000000000000000000000000000000000000000000000000000000000000000000000000000000000000000000000000000000000000000000000000000000000000000000000000000000000000000000000000000000000000000000000000000000000000000000000000000000000000000000000000000000000000000000000000000000000000000000000000000000000000000000000000000000000000000000000000000000000000000000000000000000000000000000000000000000000000000000000000000000000000000000000000000000000000000000000000000000000000000000000000000000000000000000000000000000000000000000000000000000000000000000000000000000000000000000000000000000000000000000000000000000000000000000000000000000 := by
  norm_num

set_option maxRecDepth 2000 in
lemma intRot_bound :
    400 * (((intRot 419).1 - 200 ^ 419) ^ 2 + ((intRot 419).2) ^ 2) ≤
      ((200 : ℤ) ^ 419) ^ 2 := by
  rw [intRot_419, pow200_419]
  decide

lemma pathlineEuler_iterate (n : ℕ) (x0 y0 : ℚ) :
    (pathlineEuler (3 / 200))^[n] (x0, y0) =
      ((((intRot n).1 : ℚ) * x0 - ((intRot n).2 : ℚ) * y0) / 200 ^ n,
        (((intRot n).2 : ℚ) * x0 + ((intRot n).1 : ℚ) * y0) / 200 ^ n) := by
  induction n with
  | zero => simp [intRot, intRotAux]
  | succ k ih =>
    rw [Function.iterate_succ_apply', ih, intRot_succ k]
    simp only [pathlineEuler, rotation_u, rotation_v]
    have h200 : ((200 : ℚ) ^ k) ≠ 0 := by positivity
    rw [Prod.mk.injEq]
    constructor
    · push_cast
      field_simp
      ring
    · push_cast
      field_simp
      ring

/-- One full pathline frame update from `animate` (part_002 lines 276-293):
the forward-Euler displacement is applied, and then the out-of-bounds test
`Math.abs(p.x) > 6 || Math.abs(p.y) > 6` respawns the particle at a fresh
random in-domain position, passed explicitly here as `(rx, ry)`. -/
def pathlineFrame (dt rx ry : ℚ) (p : ℚ × ℚ) : ℚ × ℚ :=
  let q := pathlineEuler dt p
  if 6 < |q.1| ∨ 6 < |q.2| then (rx, ry) else q

/-- Iterated pathline frames; `reseed n` is the random respawn position the
frame following step `n` would use if its out-of-bounds test fires. -/
def pathlineFrames (dt : ℚ) (reseed : ℕ → ℚ × ℚ) (p : ℚ × ℚ) : ℕ → ℚ × ℚ
  | 0 => p
  | n + 1 =>
    let r := reseed n
    pathlineFrame dt r.1 r.2 (pathlineFrames dt reseed p n)

/-- The constantly-zero respawn stream used by the concrete run below. -/
def zeroReseed : ℕ → ℚ × ℚ := fun _ => (0, 0)

lemma pathlineFrame_in (dt rx ry x y : ℚ)
    (hx : |x + -y * dt| ≤ 6) (hy : |y + x * dt| ≤ 6) :
    pathlineFrame dt rx ry (x, y) = (x + -y * dt, y + x * dt) := by
  have hcond : ¬(6 < |x + -y * dt| ∨ 6 < |y + x * dt|) := by
    push_neg
    exact ⟨hx, hy⟩
  simp only [pathlineFrame, pathlineEuler, rotation_u, rotation_v]
  rw [if_neg hcond]

lemma pathlineFrame_out_y (dt rx ry x y : ℚ) (hy : 6 < |y + x * dt|) :
    pathlineFrame dt rx ry (x, y) = (rx, ry) := by
  simp only [pathlineFrame, pathlineEuler, rotation_u, rotation_v]
  rw [if_pos (Or.inr hy)]

lemma pathlineFrame_eq_euler (dt rx ry : ℚ) (q : ℚ × ℚ)
    (hx : |(pathlineEuler dt q).1| ≤ 6) (hy : |(pathlineEuler dt q).2| ≤ 6) :
    pathlineFrame dt rx ry q = pathlineEuler dt q := by
  have hcond : ¬(6 < |(pathlineEuler dt q).1| ∨ 6 < |(pathlineEuler dt q).2|) := by
    push_neg
    exact ⟨hx, hy⟩
  simp only [pathlineFrame]
  rw [if_neg hcond]

lemma pathlineFrames_eq_euler (dt : ℚ) (reseed : ℕ → ℚ × ℚ) (p : ℚ × ℚ) (N : ℕ)
    (h : ∀ n : ℕ, n < N → |((pathlineEuler dt)^[n + 1] p).1| ≤ 6 ∧
      |((pathlineEuler dt)^[n + 1] p).2| ≤ 6) :
    ∀ n, n ≤ N → pathlineFrames dt reseed p n = (pathlineEuler dt)^[n] p := by
  intro n
  induction n with
  | zero => intro _; rfl
  | succ k ih =>
    intro hk
    show pathlineFrame dt (reseed k).1 (reseed k).2 (pathlineFrames dt reseed p k) = _
    rw [ih (by omega), Function.iterate_succ_apply']
    refine pathlineFrame_eq_euler dt (reseed k).1 (reseed k).2 _ ?_ ?_
    · have hh := (h k (by omega)).1
      rw [Function.iterate_succ_apply'] at hh
      exact hh
    · have hh := (h k (by omega)).2
      rw [Function.iterate_succ_apply'] at hh
      exact hh

lemma pathlineFrames_const_add (dt : ℚ) (r p : ℚ × ℚ) (m n : ℕ) :
    pathlineFrames dt (fun _ => r) p (m + n) =
      pathlineFrames dt (fun _ => r) (pathlineFrames dt (fun _ => r) p m) n := by
  induction n with
  | zero => rfl
  | succ k ih =>
    show pathlineFrame dt r.1 r.2 (pathlineFrames dt (fun _ => r) p (m + k)) = _
    rw [ih]
    rfl

lemma zeroReseed_fixed : ∀ n : ℕ,
    pathlineFrames (3 / 200) zeroReseed (0, 0) n = (0, 0) := by
  intro n
  induction n with
  | zero => rfl
  | succ k ih =>
    show pathlineFrame (3 / 200) 0 0 (pathlineFrames (3 / 200) zeroReseed (0, 0) k) = _
    rw [ih, pathlineFrame_in _ _ _ _ _ (by norm_num) (by norm_num)]
    norm_num

lemma intRot_normSq : ∀ n : ℕ, (intRot n).1 ^ 2 + (intRot n).2 ^ 2 = 40009 ^ n := by
  intro n
  induction n with
  | zero => decide
  | succ k ih =>
    rw [intRot_succ, pow_succ]
    show ((intRot k).1 * 200 - (intRot k).2 * 3) ^ 2 +
      ((intRot k).1 * 3 + (intRot k).2 * 200) ^ 2 = _
    linear_combination (40009 : ℤ) * ih

set_option maxRecDepth 2000 in
lemma pow40009_le : (40009 : ℤ) ^ 419 * 8 ≤ 9 * 40000 ^ 419 := by
  have h1 : (40009 : ℤ) ^ 419 = (intRot 419).1 ^ 2 + (intRot 419).2 ^ 2 :=
    (intRot_normSq 419).symm
  have h2 : (40000 : ℤ) ^ 419 = ((200 : ℤ) ^ 419) ^ 2 := by
    rw [show (40000 : ℤ) = 200 ^ 2 by norm_num, ← pow_mul, mul_comm 2 419, pow_mul]
  rw [h1, h2, intRot_419, pow200_419]
  decide

lemma euler_iterate_normSq (n : ℕ) (x0 y0 : ℚ) :
    ((pathlineEuler (3 / 200))^[n] (x0, y0)).1 ^ 2 +
        ((pathlineEuler (3 / 200))^[n] (x0, y0)).2 ^ 2 =
      ((40009 : ℚ) / 40000) ^ n * (x0 ^ 2 + y0 ^ 2) := by
  have hcast : ((intRot n).1 : ℚ) ^ 2 + ((intRot n).2 : ℚ) ^ 2 = (40009 : ℚ) ^ n := by
    exact_mod_cast intRot_normSq n
  have h40000 : ((200 : ℚ) ^ n) ^ 2 = (40000 : ℚ) ^ n := by
    rw [show (40000 : ℚ) = 200 ^ 2 by norm_num, ← pow_mul, mul_comm n 2, pow_mul]
  rw [pathlineEuler_iterate, div_pow, div_pow, div_add_div_same,
    show (((intRot n).1 : ℚ) * x0 - ((intRot n).2 : ℚ) * y0) ^ 2 +
        (((intRot n).2 : ℚ) * x0 + ((intRot n).1 : ℚ) * y0) ^ 2 =
      (((intRot n).1 : ℚ) ^ 2 + ((intRot n).2 : ℚ) ^ 2) * (x0 ^ 2 + y0 ^ 2) by ring,
    hcast, h40000, div_pow]
  ring

lemma euler_iterate_inBounds (n : ℕ) (hn : n ≤ 419) (x0 y0 : ℚ)
    (h32 : x0 ^ 2 + y0 ^ 2 ≤ 32) :
    |((pathlineEuler (3 / 200))^[n] (x0, y0)).1| ≤ 6 ∧
      |((pathlineEuler (3 / 200))^[n] (x0, y0)).2| ≤ 6 := by
  have hratio : ((40009 : ℚ) / 40000) ^ n ≤ ((40009 : ℚ) / 40000) ^ 419 :=
    pow_le_pow_right (by norm_num) hn
  have h419 : ((40009 : ℚ) / 40000) ^ 419 ≤ 9 / 8 := by
    rw [div_pow, div_le_div_iff (by positivity) (by norm_num)]
    exact_mod_cast pow40009_le
  have hS : (0 : ℚ) ≤ x0 ^ 2 + y0 ^ 2 := add_nonneg (sq_nonneg x0) (sq_nonneg y0)
  have hsq : ((pathlineEuler (3 / 200))^[n] (x0, y0)).1 ^ 2 +
      ((pathlineEuler (3 / 200))^[n] (x0, y0)).2 ^ 2 ≤ 36 := by
    rw [euler_iterate_normSq]
    calc ((40009 : ℚ) / 40000) ^ n * (x0 ^ 2 + y0 ^ 2) ≤ 9 / 8 * 32 :=
          mul_le_mul (hratio.trans h419) h32 hS (by norm_num)
      _ = 36 := by norm_num
  constructor
  · rw [abs_le]
    constructor <;>
      nlinarith [sq_nonneg (((pathlineEuler (3 / 200))^[n] (x0, y0)).1 + 6),
        sq_nonneg (((pathlineEuler (3 / 200))^[n] (x0, y0)).1 - 6),
        sq_nonneg (((pathlineEuler (3 / 200))^[n] (x0, y0)).2)]
  · rw [abs_le]
    constructor <;>
      nlinarith [sq_nonneg (((pathlineEuler (3 / 200))^[n] (x0, y0)).2 + 6),
        sq_nonneg (((pathlineEuler (3 / 200))^[n] (x0, y0)).2 - 6),
        sq_nonneg (((pathlineEuler (3 / 200))^[n] (x0, y0)).1)]

/-- Claim C4 fails on the code: the pathline update of `animate` respawns any
particle whose position leaves the band |x| ≤ 6, |y| ≤ 6 immediately after
the Euler step.  The seed (4.9, 4.9) lies inside the 10×10 domain, but its
orbit radius is ≈ 6.93, so at step 18 the y-coordinate reaches ≈ 6.04 > 6
and the particle is respawned (here: the random respawn stream happens to
yield the origin, which the rotation field fixes); after the 419 steps of one
full revolution it sits at (0, 0), a full 6.93 length units — more than the
domain half-width — away from its seed, not within any small tolerance. -/
theorem C4_counterexample :
    (|(49 : ℚ) / 10| ≤ 5 ∧ |(49 : ℚ) / 10| ≤ 5) ∧
      pathlineFrames (3 / 200) zeroReseed (49 / 10, 49 / 10) 419 = (0, 0) ∧
      (6 : ℚ) ^ 2 ≤
        ((pathlineFrames (3 / 200) zeroReseed (49 / 10, 49 / 10) 419).1 - 49 / 10) ^ 2 +
          ((pathlineFrames (3 / 200) zeroReseed (49 / 10, 49 / 10) 419).2 - 49 / 10) ^ 2 := by
  have e1 : pathlineFrames (3 / 200) zeroReseed (49 / 10, 49 / 10) 1 = ((9653 : ℚ) / 2000, (9947 : ℚ) / 2000) := by
    show pathlineFrame (3 / 200) 0 0
      (pathlineFrames (3 / 200) zeroReseed (49 / 10, 49 / 10) 0) = _
    rw [show pathlineFrames (3 / 200) zeroReseed ((49 : ℚ) / 10, (49 : ℚ) / 10) 0 = (49 / 10, 49 / 10) from rfl,
      pathlineFrame_in _ _ _ _ _ (by rw [abs_le]; constructor <;> norm_num)
        (by rw [abs_le]; constructor <;> norm_num)]
    norm_num
  have e2 : pathlineFrames (3 / 200) zeroReseed (49 / 10, 49 / 10) 2 = ((1900759 : ℚ) / 400000, (2018359 : ℚ) / 400000) := by
    show pathlineFrame (3 / 200) 0 0
      (pathlineFrames (3 / 200) zeroReseed (49 / 10, 49 / 10) 1) = _
    rw [e1,
      pathlineFrame_in _ _ _ _ _ (by rw [abs_le]; constructor <;> norm_num)
        (by rw [abs_le]; constructor <;> norm_num)]
    norm_num
  have e3 : pathlineFrames (3 / 200) zeroReseed (49 / 10, 49 / 10) 3 = ((374096723 : ℚ) / 80000000, (409374077 : ℚ) / 80000000) := by
    show pathlineFrame (3 / 200) 0 0
      (pathlineFrames (3 / 200) zeroReseed (49 / 10, 49 / 10) 2) = _
    rw [e2,
      pathlineFrame_in _ _ _ _ _ (by rw [abs_le]; constructor <;> norm_num)
        (by rw [abs_le]; constructor <;> norm_num)]
    norm_num
  have e4 : pathlineFrames (3 / 200) zeroReseed (49 / 10, 49 / 10) 4 = ((73591222369 : ℚ) / 16000000000, (82997105569 : ℚ) / 16000000000) := by
    show pathlineFrame (3 / 200) 0 0
      (pathlineFrames (3 / 200) zeroReseed (49 / 10, 49 / 10) 3) = _
    rw [e3,
      pathlineFrame_in _ _ _ _ _ (by rw [abs_le]; constructor <;> norm_num)
        (by rw [abs_le]; constructor <;> norm_num)]
    norm_num
  have e5 : pathlineFrames (3 / 200) zeroReseed (49 / 10, 49 / 10) 5 = ((14469253157093 : ℚ) / 3200000000000, (16820194780907 : ℚ) / 3200000000000) := by
    show pathlineFrame (3 / 200) 0 0
      (pathlineFrames (3 / 200) zeroReseed (49 / 10, 49 / 10) 4) = _
    rw [e4,
      pathlineFrame_in _ _ _ _ _ (by rw [abs_le]; constructor <;> norm_num)
        (by rw [abs_le]; constructor <;> norm_num)]
    norm_num
  have e6 : pathlineFrames (3 / 200) zeroReseed (49 / 10, 49 / 10) 6 = ((2843390047075879 : ℚ) / 640000000000000, (3407446715652679 : ℚ) / 640000000000000) := by
    show pathlineFrame (3 / 200) 0 0
      (pathlineFrames (3 / 200) zeroReseed (49 / 10, 49 / 10) 5) = _
    rw [e5,
      pathlineFrame_in _ _ _ _ _ (by rw [abs_le]; constructor <;> norm_num)
        (by rw [abs_le]; constructor <;> norm_num)]
    norm_num
  have e7 : pathlineFrames (3 / 200) zeroReseed (49 / 10, 49 / 10) 7 = ((558455669268217763 : ℚ) / 128000000000000000, (690019513271763437 : ℚ) / 128000000000000000) := by
    show pathlineFrame (3 / 200) 0 0
      (pathlineFrames (3 / 200) zeroReseed (49 / 10, 49 / 10) 6) = _
    rw [e6,
      pathlineFrame_in _ _ _ _ _ (by rw [abs_le]; constructor <;> norm_num)
        (by rw [abs_le]; constructor <;> norm_num)]
    norm_num
  have e8 : pathlineFrames (3 / 200) zeroReseed (49 / 10, 49 / 10) 8 = ((109621075313828262289 : ℚ) / 25600000000000000000, (139679269662157340689 : ℚ) / 25600000000000000000) := by
    show pathlineFrame (3 / 200) 0 0
      (pathlineFrames (3 / 200) zeroReseed (49 / 10, 49 / 10) 7) = _
    rw [e7,
      pathlineFrame_in _ _ _ _ _ (by rw [abs_le]; constructor <;> norm_num)
        (by rw [abs_le]; constructor <;> norm_num)]
    norm_num
  have e9 : pathlineFrames (3 / 200) zeroReseed (49 / 10, 49 / 10) 9 = ((21505177253779180435733 : ℚ) / 5120000000000000000000, (28264717158372952924667 : ℚ) / 5120000000000000000000) := by
    show pathlineFrame (3 / 200) 0 0
      (pathlineFrames (3 / 200) zeroReseed (49 / 10, 49 / 10) 8) = _
    rw [e8,
      pathlineFrame_in _ _ _ _ _ (by rw [abs_le]; constructor <;> norm_num)
        (by rw [abs_le]; constructor <;> norm_num)]
    norm_num
  have e10 : pathlineFrames (3 / 200) zeroReseed (49 / 10, 49 / 10) 10 = ((4216241299280717228372599 : ℚ) / 1024000000000000000000000, (5717458963435928126240599 : ℚ) / 1024000000000000000000000) := by
    show pathlineFrame (3 / 200) 0 0
      (pathlineFrames (3 / 200) zeroReseed (49 / 10, 49 / 10) 9) = _
    rw [e9,
      pathlineFrame_in _ _ _ _ _ (by rw [abs_le]; constructor <;> norm_num)
        (by rw [abs_le]; constructor <;> norm_num)]
    norm_num
  have e11 : pathlineFrames (3 / 200) zeroReseed (49 / 10, 49 / 10) 11 = ((826095882965835661295798003 : ℚ) / 204800000000000000000000000, (1156140516585027776933237597 : ℚ) / 204800000000000000000000000) := by
    show pathlineFrame (3 / 200) 0 0
      (pathlineFrames (3 / 200) zeroReseed (49 / 10, 49 / 10) 10) = _
    rw [e10,
      pathlineFrame_in _ _ _ _ _ (by rw [abs_le]; constructor <;> norm_num)
        (by rw [abs_le]; constructor <;> norm_num)]
    norm_num
  have e12 : pathlineFrames (3 / 200) zeroReseed (49 / 10, 49 / 10) 12 = ((161750755043412048928359887809 : ℚ) / 40960000000000000000000000000, (233706390965903062370534913409 : ℚ) / 40960000000000000000000000000) := by
    show pathlineFrame (3 / 200) 0 0
      (pathlineFrames (3 / 200) zeroReseed (49 / 10, 49 / 10) 11) = _
    rw [e11,
      pathlineFrame_in _ _ _ _ _ (by rw [abs_le]; constructor <;> norm_num)
        (by rw [abs_le]; constructor <;> norm_num)]
    norm_num
  have e13 : pathlineFrames (3 / 200) zeroReseed (49 / 10, 49 / 10) 13 = ((31649031835784700598560372821573 : ℚ) / 8192000000000000000000000000000, (47226530458310848620892062345227 : ℚ) / 8192000000000000000000000000000) := by
    show pathlineFrame (3 / 200) 0 0
      (pathlineFrames (3 / 200) zeroReseed (49 / 10, 49 / 10) 12) = _
    rw [e12,
      pathlineFrame_in _ _ _ _ _ (by rw [abs_le]; constructor <;> norm_num)
        (by rw [abs_le]; constructor <;> norm_num)]
    norm_num
  have e14 : pathlineFrames (3 / 200) zeroReseed (49 / 10, 49 / 10) 14 = ((6188126775782007573849398377278919 : ℚ) / 1638400000000000000000000000000000, (9540253187169523825974093587510119 : ℚ) / 1638400000000000000000000000000000) := by
    show pathlineFrame (3 / 200) 0 0
      (pathlineFrames (3 / 200) zeroReseed (49 / 10, 49 / 10) 13) = _
    rw [e13,
      pathlineFrame_in _ _ _ _ _ (by rw [abs_le]; constructor <;> norm_num)
        (by rw [abs_le]; constructor <;> norm_num)]
    norm_num
  have e15 : pathlineFrames (3 / 200) zeroReseed (49 / 10, 49 / 10) 15 = ((1209004595594892943291957394693253443 : ℚ) / 327680000000000000000000000000000000, (1926615017761250787916366912633860557 : ℚ) / 327680000000000000000000000000000000) := by
    show pathlineFrame (3 / 200) 0 0
      (pathlineFrames (3 / 200) zeroReseed (49 / 10, 49 / 10) 14) = _
    rw [e14,
      pathlineFrame_in _ _ _ _ _ (by rw [abs_le]; constructor <;> norm_num)
        (by rw [abs_le]; constructor <;> norm_num)]
    norm_num
  have e16 : pathlineFrames (3 / 200) zeroReseed (49 / 10, 49 / 10) 16 = ((236021074065694836294642378200749106929 : ℚ) / 65536000000000000000000000000000000000, (388950017339034836413149254710851871729 : ℚ) / 65536000000000000000000000000000000000) := by
    show pathlineFrame (3 / 200) 0 0
      (pathlineFrames (3 / 200) zeroReseed (49 / 10, 49 / 10) 15) = _
    rw [e15,
      pathlineFrame_in _ _ _ _ _ (by rw [abs_le]; constructor <;> norm_num)
        (by rw [abs_le]; constructor <;> norm_num)]
    norm_num
  have e17 : pathlineFrames (3 / 200) zeroReseed (49 / 10, 49 / 10) 17 = ((46037364761121862749689027876017265770613 : ℚ) / 13107200000000000000000000000000000000000, (78498066690004051791513778076772621666587 : ℚ) / 13107200000000000000000000000000000000000) := by
    show pathlineFrame (3 / 200) 0 0
      (pathlineFrames (3 / 200) zeroReseed (49 / 10, 49 / 10) 16) = _
    rw [e16,
      pathlineFrame_in _ _ _ _ _ (by rw [abs_le]; constructor <;> norm_num)
        (by rw [abs_le]; constructor <;> norm_num)]
    norm_num
  have e18 : pathlineFrames (3 / 200) zeroReseed (49 / 10, 49 / 10) 18 = (0, 0) := by
    show pathlineFrame (3 / 200) 0 0
      (pathlineFrames (3 / 200) zeroReseed (49 / 10, 49 / 10) 17) = _
    rw [e17, pathlineFrame_out_y]
    rw [abs_of_pos (by norm_num)]
    norm_num
  have hfull : pathlineFrames (3 / 200) zeroReseed (49 / 10, 49 / 10) 419 = (0, 0) := by
    have hsplit := pathlineFrames_const_add (3 / 200) (0, 0) (49 / 10, 49 / 10) 18 401
    rw [show (18 : ℕ) + 401 = 419 from rfl] at hsplit
    rw [show zeroReseed = fun _ => ((0 : ℚ), (0 : ℚ)) from rfl] at e18 ⊢
    rw [hsplit, e18]
    rw [show (fun _ => ((0 : ℚ), (0 : ℚ))) = zeroReseed from rfl]
    exact zeroReseed_fixed 401
  refine ⟨⟨by rw [abs_of_pos] <;> norm_num, by rw [abs_of_pos] <;> norm_num⟩, hfull, ?_⟩
  rw [hfull]
  norm_num

/-- Claim C4, amended: in the velocity-field kinematics app with the rotation
preset (u = -y, v = x), a pathline particle seeded at any (x₀, y₀) with
x₀² + y₀² ≤ 32 (radius ≤ 4√2 ≈ 5.66, which covers the whole inscribed disk
of the 10×10 domain) and advanced by the app's pathline frame update — the
forward-Euler step of `effectiveDt = 0.015` followed by the out-of-bounds
respawn test — until the simulated time has increased by one full revolution
2π (which first happens after 419 steps, as the first conjunct states) is
never respawned, and returns to within a small numeric tolerance of its
starting position: the squared distance to the seed is at most
(1/400)·(x₀² + y₀²), i.e. most 5 percent of the seed's distance from the
origin.  (Seeds further out in the domain's corners can cross the |y| > 6
respawn band mid-revolution and are not covered, as the counterexample
shows.) -/
theorem C4_rotation_full_revolution :
    ((418 : ℝ) * (3 / 200) < 2 * Real.pi ∧ 2 * Real.pi < (419 : ℝ) * (3 / 200)) ∧
    ∀ (reseed : ℕ → ℚ × ℚ) (x0 y0 : ℚ), x0 ^ 2 + y0 ^ 2 ≤ 32 →
      pathlineFrames (3 / 200) reseed (x0, y0) 419 =
        (pathlineEuler (3 / 200))^[419] (x0, y0) ∧
      400 * (((pathlineFrames (3 / 200) reseed (x0, y0) 419).1 - x0) ^ 2 +
          ((pathlineFrames (3 / 200) reseed (x0, y0) 419).2 - y0) ^ 2) ≤
        x0 ^ 2 + y0 ^ 2 := by
  refine ⟨⟨by nlinarith [Real.pi_gt_3141592], by nlinarith [Real.pi_lt_3141593]⟩, ?_⟩
  intro reseed x0 y0 h32
  have hee : pathlineFrames (3 / 200) reseed (x0, y0) 419 =
      (pathlineEuler (3 / 200))^[419] (x0, y0) :=
    pathlineFrames_eq_euler (3 / 200) reseed (x0, y0) 419
      (fun n hn => euler_iterate_inBounds (n + 1) (by omega) x0 y0 h32) 419 le_rfl
  refine ⟨hee, ?_⟩
  rw [hee, pathlineEuler_iterate]
  have key : (400 : ℚ) *
      ((((intRot 419).1 : ℚ) - 200 ^ 419) ^ 2 + ((intRot 419).2 : ℚ) ^ 2) ≤
        ((200 : ℚ) ^ 419) ^ 2 := by
    exact_mod_cast intRot_bound
  have hd : (0 : ℚ) < 200 ^ 419 := by positivity
  have expand :
      ((((intRot 419).1 : ℚ) * x0 - ((intRot 419).2 : ℚ) * y0) / 200 ^ 419 - x0) ^ 2 +
        ((((intRot 419).2 : ℚ) * x0 + ((intRot 419).1 : ℚ) * y0) / 200 ^ 419 - y0) ^ 2 =
      ((((intRot 419).1 : ℚ) - 200 ^ 419) ^ 2 + ((intRot 419).2 : ℚ) ^ 2) *
        (x0 ^ 2 + y0 ^ 2) / ((200 : ℚ) ^ 419) ^ 2 := by
    field_simp
    ring
  have hd2 : (0 : ℚ) < ((200 : ℚ) ^ 419) ^ 2 := pow_pos hd 2
  rw [expand, ← mul_div_assoc, div_le_iff hd2]
  have hS : (0 : ℚ) ≤ x0 ^ 2 + y0 ^ 2 := add_nonneg (sq_nonneg x0) (sq_nonneg y0)
  nlinarith [mul_le_mul_of_nonneg_right key hS]

/-- Witness for C4's amended statement at the concrete seed (3, 4) of squared
radius 25 ≤ 32, with the constantly-zero respawn stream. -/
theorem C4_rotation_full_revolution_witness :
    ((3 : ℚ) ^ 2 + 4 ^ 2 ≤ 32) ∧
      (pathlineFrames (3 / 200) zeroReseed (3, 4) 419 =
          (pathlineEuler (3 / 200))^[419] (3, 4) ∧
        400 * (((pathlineFrames (3 / 200) zeroReseed (3, 4) 419).1 - 3) ^ 2 +
            ((pathlineFrames (3 / 200) zeroReseed (3, 4) 419).2 - 4) ^ 2) ≤
          3 ^ 2 + 4 ^ 2) :=
  ⟨by norm_num, C4_rotation_full_revolution.2 zeroReseed 3 4 (by norm_num)⟩

/-! ### Deformation-tensor app (src/unnamed/part_001)

The app delegates parsing, symbolic differentiation and simplification of the
displacement expressions to a third-party computer-algebra library that is not
part of this repository's sources; that engine is modelled from the spec below
(symbolic expression tree over x, y, z with rational constants, the standard
derivative rules, and recursive constant-folding simplification).  The
repository's own wiring — `getSafeDerivative`, `calculateTensor`,
`compileFunctions`, `handleCalculate` — is embedded from the source. -/

inductive Var3 where
  | x : Var3
  | y : Var3
  | z : Var3
deriving DecidableEq

/-- Modelled from the spec: symbolic expression trees of the third-party
computer-algebra library (missing from src/), restricted to the constructs the
displacement presets use: rational constants, the variables x, y, z, sums,
products and negation. -/
inductive Expr where
  | const : ℚ → Expr
  | var : Var3 → Expr
  | add : Expr → Expr → Expr
  | mul : Expr → Expr → Expr
  | neg : Expr → Expr
deriving DecidableEq

/-- Modelled from the spec: the symbolic first partial derivative computed by
the computer-algebra library (missing from src/), by the standard rules
(constants to zero, variables to 0/1, linearity, product rule). -/
def derivative : Expr → Var3 → Expr
  | .const _, _ => .const 0
  | .var w, v => .const (if w = v then 1 else 0)
  | .add a b, v => .add (derivative a v) (derivative b v)
  | .mul a b, v => .add (.mul (derivative a v) b) (.mul a (derivative b v))
  | .neg a, v => .neg (derivative a v)

def simpAdd (a b : Expr) : Expr :=
  match a, b with
  | .const ca, .const cb => .const (ca + cb)
  | .const ca, b' => if ca = 0 then b' else .add (.const ca) b'
  | a', .const cb => if cb = 0 then a' else .add a' (.const cb)
  | a', b' => .add a' b'

def simpMul (a b : Expr) : Expr :=
  match a, b with
  | .const ca, .const cb => .const (ca * cb)
  | .const ca, b' =>
    if ca = 0 then .const 0 else if ca = 1 then b' else .mul (.const ca) b'
  | a', .const cb =>
    if cb = 0 then .const 0 else if cb = 1 then a' else .mul a' (.const cb)
  | a', b' => .mul a' b'

def simpNeg : Expr → Expr
  | .const c => .const (-c)
  | e => .neg e

/-- Modelled from the spec: the algebraic simplification of the
computer-algebra library (missing from src/): recursive constant folding with
absorption of zero and one. -/
def simplify : Expr → Expr
  | .const c => .const c
  | .var v => .var v
  | .add a b => simpAdd (simplify a) (simplify b)
  | .mul a b => simpMul (simplify a) (simplify b)
  | .neg a => simpNeg (simplify a)

/-- A user-entered displacement expression as the library pipeline sees it:
either fully usable, failing to parse, or parseable but failing to
differentiate (the library's derivative supports fewer node kinds than its
compiler, which is why `getSafeDerivative` has its own catch). -/
inductive ExprInput where
  | good : Expr → ExprInput
  | parseFail : ExprInput
  | diffFail : Expr → ExprInput
deriving DecidableEq

/-- The wrapper `getSafeDerivative` (part_001 lines 94-104): parse,
differentiate and simplify; any failure is caught and replaced by the parsed
zero expression. -/
def getSafeDerivative (i : ExprInput) (v : Var3) : Expr :=
  match i with
  | .good e => simplify (derivative e v)
  | .parseFail => .const 0
  | .diffFail _ => .const 0

structure TensorState where
  e11 : Expr
  e12 : Expr
  e13 : Expr
  e21 : Expr
  e22 : Expr
  e23 : Expr
  e31 : Expr
  e32 : Expr
  e33 : Expr
deriving DecidableEq

/-- The tensor assembly `calculateTensor` (part_001 lines 117-142): the nine
safe derivatives are taken, the diagonal entries are the simplified
derivatives, the off-diagonal entries are `simplify (0.5 * (du_i/dx_j +
du_j/dx_i))`, and the tensor is filled symmetrically. -/
def calculateTensor (iu iv iw : ExprInput) : TensorState :=
  let dudx := getSafeDerivative iu .x
  let dudy := getSafeDerivative iu .y
  let dudz := getSafeDerivative iu .z
  let dvdx := getSafeDerivative iv .x
  let dvdy := getSafeDerivative iv .y
  let dvdz := getSafeDerivative iv .z
  let dwdx := getSafeDerivative iw .x
  let dwdy := getSafeDerivative iw .y
  let dwdz := getSafeDerivative iw .z
  let e11 := simplify dudx
  let e22 := simplify dvdy
  let e33 := simplify dwdz
  let e12 := simplify (.mul (.const (1/2)) (.add dudy dvdx))
  let e13 := simplify (.mul (.const (1/2)) (.add dudz dwdx))
  let e23 := simplify (.mul (.const (1/2)) (.add dvdz dwdy))
  ⟨e11, e12, e13, e12, e22, e23, e13, e23, e33⟩

/-- An expression input compiles unless it fails to parse (an expression the
derivative rejects still compiles, which is why `getSafeDerivative` needs its
own catch). -/
def canCompile : ExprInput → Bool
  | .parseFail => false
  | _ => true

/-- The visualization compiler `compileFunctions` (part_001 lines 144-158):
compiling the three expressions succeeds unless one of them fails to parse, in
which case the single syntax-error message is surfaced to the UI and the
remaining compilations are skipped. -/
def compileFunctions (iu iv iw : ExprInput) : Option String :=
  if canCompile iu && canCompile iv && canCompile iw then none
  else some "Error de sintaxis"

/-- The submit handler `handleCalculate` (part_001 lines 160-173): the error
is cleared, the tensor is always computed, and the only error that can be
surfaced afterwards comes from `compileFunctions`. -/
def handleCalculate (iu iv iw : ExprInput) : TensorState × Option String :=
  (calculateTensor iu iv iw, compileFunctions iu iv iw)

/-- Claim C7 (engine modelled from the spec): for the pure rigid rotation
displacement field u = -(k*y), v = k*x, w = 0 — the rotation preset with
general coefficient k — every computed strain tensor entry simplifies to the
zero expression. -/
theorem C7_rotation_strain_zero (k : ℚ) :
    calculateTensor (.good (.neg (.mul (.const k) (.var .y))))
        (.good (.mul (.const k) (.var .x))) (.good (.const 0)) =
      ⟨.const 0, .const 0, .const 0, .const 0, .const 0, .const 0,
        .const 0, .const 0, .const 0⟩ := by
  simp only [calculateTensor, getSafeDerivative, derivative, simplify, simpAdd, simpMul,
    simpNeg]
  norm_num
  refine ⟨?_, ?_, ?_, ?_, ?_, ?_⟩ <;> exact fun h => absurd h (by decide)

/-- Claim C8 fails on the code as stated: an expression that parses and
compiles but cannot be differentiated (the `diffFail` input) makes
`getSafeDerivative` fall back to the zero expression, yet `handleCalculate`
surfaces no error at all — the aggregate syntax error is produced only by the
compile step, which succeeds here. -/
theorem C8_counterexample :
    getSafeDerivative (.diffFail (.var .x)) .x = .const 0 ∧
      (handleCalculate (.diffFail (.var .x)) (.good (.var .x))
          (.good (.const 0))).2 = none := by
  exact ⟨rfl, rfl⟩

/-- Chooses the expression actually used by the safe-derivative pipeline:
failures behave exactly like the zero expression. -/
def fallbackExpr : ExprInput → Expr
  | .good e => e
  | .parseFail => .const 0
  | .diffFail _ => .const 0

lemma getSafeDerivative_eq_fallback (i : ExprInput) (v : Var3) :
    getSafeDerivative i v = simplify (derivative (fallbackExpr i) v) := by
  cases i <;> simp [getSafeDerivative, fallbackExpr, derivative, simplify]

/-- Claim C8, amended: if parsing or differentiating any one displacement
expression fails, the affected derivatives fall back to the zero expression
while all other tensor entries are still computed — the whole tensor equals
the tensor of the inputs with each failing expression replaced by the zero
expression, so the computation is never aborted; at most a single aggregate
error is surfaced to the UI, and it is surfaced exactly when one of the
expressions fails to parse — a differentiation-only failure is absorbed
silently (console warning only), surfacing no error. -/
theorem C8_failure_fallback (iu iv iw : ExprInput) :
    (handleCalculate iu iv iw).1 =
      calculateTensor (.good (fallbackExpr iu)) (.good (fallbackExpr iv))
        (.good (fallbackExpr iw)) ∧
    ((handleCalculate iu iv iw).2 = some "Error de sintaxis" ↔
      (iu = .parseFail ∨ iv = .parseFail ∨ iw = .parseFail)) ∧
    ((handleCalculate iu iv iw).2 = some "Error de sintaxis" ∨
      (handleCalculate iu iv iw).2 = none) := by
  refine ⟨?_, ?_, ?_⟩
  · show calculateTensor iu iv iw = _
    simp only [calculateTensor, getSafeDerivative_eq_fallback, fallbackExpr]
  · show compileFunctions iu iv iw = some "Error de sintaxis" ↔ _
    cases iu <;> cases iv <;> cases iw <;> simp [compileFunctions, canCompile]
  · show compileFunctions iu iv iw = some "Error de sintaxis" ∨
      compileFunctions iu iv iw = none
    cases iu <;> cases iv <;> cases iw <;> simp [compileFunctions, canCompile]

/-! ### Euler-Lagrange app flow presets (src/unnamed/part_000, `FLOWS`, lines 39-112)

The nine flow presets, embedded over the reals with their slider parameters as
leading arguments.  The point-vortex velocities carry the source's guard
`r2 < 1e-4 ? 0 : ...`. -/

noncomputable section

def Uniforme_vx (U x y t : ℝ) : ℝ := U

def Uniforme_vy (U x y t : ℝ) : ℝ := 0

def Uniforme_div (U x y t : ℝ) : ℝ := 0

def RotacionSolida_vx (Omega x y t : ℝ) : ℝ := -Omega * y

def RotacionSolida_vy (Omega x y t : ℝ) : ℝ := Omega * x

def RotacionSolida_div (Omega x y t : ℝ) : ℝ := 0

def Cizalladura_vx (k x y t : ℝ) : ℝ := k * y

def Cizalladura_vy (k x y t : ℝ) : ℝ := 0

def Cizalladura_div (k x y t : ℝ) : ℝ := 0

def Estancamiento_vx (a x y t : ℝ) : ℝ := a * x

def Estancamiento_vy (a x y t : ℝ) : ℝ := -a * y

def Estancamiento_div (a x y t : ℝ) : ℝ := 0

def VorticePuntual_vx (Gamma x y t : ℝ) : ℝ :=
  if x * x + y * y < 1e-4 then 0 else -(Gamma * y) / (2 * Real.pi * (x * x + y * y))

def VorticePuntual_vy (Gamma x y t : ℝ) : ℝ :=
  if x * x + y * y < 1e-4 then 0 else Gamma * x / (2 * Real.pi * (x * x + y * y))

def VorticePuntual_div (Gamma x y t : ℝ) : ℝ := 0

def ExpansionRadial_vx (k x y t : ℝ) : ℝ := k * x

def ExpansionRadial_vy (k x y t : ℝ) : ℝ := k * y

def ExpansionRadial_div (k x y t : ℝ) : ℝ := 2 * k

def Espiral_vx (a b x y t : ℝ) : ℝ := a * x - b * y

def Espiral_vy (a b x y t : ℝ) : ℝ := b * x + a * y

def Espiral_div (a b x y t : ℝ) : ℝ := 2 * a

def OndaCompresion_vx (A k x y t : ℝ) : ℝ := A * Real.sin (k * x)

def OndaCompresion_vy (A k x y t : ℝ) : ℝ := 0

def OndaCompresion_div (A k x y t : ℝ) : ℝ := A * k * Real.cos (k * x)

def Oscilante_vx (A omega x y t : ℝ) : ℝ := A * Real.sin (omega * t)

def Oscilante_vy (A omega x y t : ℝ) : ℝ := 0

def Oscilante_div (A omega x y t : ℝ) : ℝ := 0

end

/-- The value `d` is the analytic divergence of the planar field `(vx, vy)` at
`(x, y, t)`: both partial derivatives exist there and `d` is their sum. -/
def hasAnalyticDiv (vx vy : ℝ → ℝ → ℝ → ℝ) (d : ℝ) (x y t : ℝ) : Prop :=
  ∃ dvx dvy : ℝ, HasDerivAt (fun s => vx s y t) dvx x ∧
    HasDerivAt (fun s => vy x s t) dvy y ∧ d = dvx + dvy

/-- Claim C1 fails on the code as literally stated: the point
(0.006, 0.008) lies exactly on the guard circle x² + y² = 1e-4 — not below
the threshold, so the claim requires the implemented divergence to equal the
analytic divergence there — but the implemented x-velocity of the point
vortex (Γ = 1) jumps from 0 (just inside the circle) to -40/π there, so it is
discontinuous in x and has no partial derivative at all. -/
theorem C1_counterexample :
    (1e-4 : ℝ) ≤ 0.006 * 0.006 + 0.008 * 0.008 ∧
    ¬ ∃ dvx : ℝ, HasDerivAt (fun s => VorticePuntual_vx 1 s 0.008 0) dvx 0.006 := by
  refine ⟨by norm_num, ?_⟩
  rintro ⟨dvx, h⟩
  have hc : ContinuousAt (fun s => VorticePuntual_vx 1 s 0.008 0) 0.006 := h.continuousAt
  have hzero : ∀ a : ℝ, 0.005 < a → a < 0.006 → VorticePuntual_vx 1 a 0.008 0 = 0 := by
    intro a h1 h2
    simp only [VorticePuntual_vx]
    rw [if_pos]
    nlinarith
  have hval : VorticePuntual_vx 1 0.006 0.008 0 = -40 / Real.pi := by
    simp only [VorticePuntual_vx]
    rw [if_neg (by norm_num),
      show (0.006 * 0.006 + 0.008 * 0.008 : ℝ) = 1e-4 by norm_num]
    rw [div_eq_div_iff (ne_of_gt (by positivity)) Real.pi_ne_zero]
    ring_nf
  rw [Metric.continuousAt_iff] at hc
  obtain ⟨δ, hδ, hball⟩ := hc 1 one_pos
  have ha1 : (0.005 : ℝ) < max 0.0055 (0.006 - δ / 2) :=
    lt_of_lt_of_le (by norm_num) (le_max_left _ _)
  have ha2 : max (0.0055 : ℝ) (0.006 - δ / 2) < 0.006 :=
    max_lt (by norm_num) (by linarith)
  have hdist : dist (max (0.0055 : ℝ) (0.006 - δ / 2)) 0.006 < δ := by
    rw [Real.dist_eq, abs_of_neg (by linarith : max (0.0055 : ℝ) (0.006 - δ / 2) - 0.006 < 0)]
    have := le_max_right (0.0055 : ℝ) (0.006 - δ / 2)
    linarith
  have hlt := hball hdist
  rw [hzero _ ha1 ha2, hval, Real.dist_eq, zero_sub, abs_neg] at hlt
  have habs : |(-40 : ℝ) / Real.pi| = 40 / Real.pi := by
    rw [abs_div, abs_of_neg (by norm_num : (-40 : ℝ) < 0), abs_of_pos Real.pi_pos]
    norm_num
  rw [habs] at hlt
  have h40 := (div_lt_one Real.pi_pos).mp hlt
  linarith [Real.pi_lt_d2]

/-- Claim C1, amended: for every flow preset of the Euler-Lagrange app, for
every point (x, y), time t and parameter values, the preset's implemented
divergence function equals the analytic divergence dvx/dx + dvy/dy of its
implemented velocity components, except for the point-vortex preset at points
with x² + y² at or below the guard threshold 1e-4; strictly below the
threshold both point-vortex velocity components are defined to return zero
(as the claim states), while on the guard circle itself the velocities are
discontinuous and have no partial derivatives. -/
theorem C1_divergence_matches :
    (∀ U x y t : ℝ,
      hasAnalyticDiv (Uniforme_vx U) (Uniforme_vy U) (Uniforme_div U x y t) x y t) ∧
    (∀ Omega x y t : ℝ,
      hasAnalyticDiv (RotacionSolida_vx Omega) (RotacionSolida_vy Omega)
        (RotacionSolida_div Omega x y t) x y t) ∧
    (∀ k x y t : ℝ,
      hasAnalyticDiv (Cizalladura_vx k) (Cizalladura_vy k)
        (Cizalladura_div k x y t) x y t) ∧
    (∀ a x y t : ℝ,
      hasAnalyticDiv (Estancamiento_vx a) (Estancamiento_vy a)
        (Estancamiento_div a x y t) x y t) ∧
    ((∀ Gamma x y t : ℝ, 1e-4 < x * x + y * y →
        hasAnalyticDiv (VorticePuntual_vx Gamma) (VorticePuntual_vy Gamma)
          (VorticePuntual_div Gamma x y t) x y t) ∧
      (∀ Gamma x y t : ℝ, x * x + y * y < 1e-4 →
        VorticePuntual_vx Gamma x y t = 0 ∧ VorticePuntual_vy Gamma x y t = 0)) ∧
    (∀ k x y t : ℝ,
      hasAnalyticDiv (ExpansionRadial_vx k) (ExpansionRadial_vy k)
        (ExpansionRadial_div k x y t) x y t) ∧
    (∀ a b x y t : ℝ,
      hasAnalyticDiv (Espiral_vx a b) (Espiral_vy a b)
        (Espiral_div a b x y t) x y t) ∧
    (∀ A k x y t : ℝ,
      hasAnalyticDiv (OndaCompresion_vx A k) (OndaCompresion_vy A k)
        (OndaCompresion_div A k x y t) x y t) ∧
    (∀ A omega x y t : ℝ,
      hasAnalyticDiv (Oscilante_vx A omega) (Oscilante_vy A omega)
        (Oscilante_div A omega x y t) x y t) := by
  refine ⟨?_, ?_, ?_, ?_, ⟨?_, ?_⟩, ?_, ?_, ?_, ?_⟩
  · intro U x y t
    exact ⟨0, 0, hasDerivAt_const x U, hasDerivAt_const y 0, by
      simp [Uniforme_div]⟩
  · intro Omega x y t
    exact ⟨0, 0, hasDerivAt_const x (-Omega * y), hasDerivAt_const y (Omega * x), by
      simp [RotacionSolida_div]⟩
  · intro k x y t
    exact ⟨0, 0, hasDerivAt_const x (k * y), hasDerivAt_const y 0, by
      simp [Cizalladura_div]⟩
  · intro a x y t
    refine ⟨a * 1, -a * 1, (hasDerivAt_id x).const_mul a,
      (hasDerivAt_id y).const_mul (-a), ?_⟩
    simp only [Estancamiento_div]
    ring
  · intro Gamma x y t hr
    have hr0 : (0 : ℝ) < x * x + y * y := lt_trans (by norm_num) hr
    have hD : (0 : ℝ) < 2 * Real.pi * (x * x + y * y) :=
      mul_pos (mul_pos two_pos Real.pi_pos) hr0
    have hDx : HasDerivAt (fun s : ℝ => 2 * Real.pi * (s * s + y * y))
        (2 * Real.pi * (1 * x + x * 1)) x :=
      (((hasDerivAt_id x).mul (hasDerivAt_id x)).add_const (y * y)).const_mul (2 * Real.pi)
    have hDy : HasDerivAt (fun s : ℝ => 2 * Real.pi * (x * x + s * s))
        (2 * Real.pi * (1 * y + y * 1)) y :=
      (((hasDerivAt_id y).mul (hasDerivAt_id y)).const_add (x * x)).const_mul (2 * Real.pi)
    have hfx := (hasDerivAt_const x (-(Gamma * y))).div hDx (ne_of_gt hD)
    have hfy := (hasDerivAt_const y (Gamma * x)).div hDy (ne_of_gt hD)
    have hcont : Continuous fun s : ℝ => s * s + y * y :=
      (continuous_id.mul continuous_id).add continuous_const
    have hcont' : Continuous fun s : ℝ => x * x + s * s :=
      continuous_const.add (continuous_id.mul continuous_id)
    have heqx : (fun s => VorticePuntual_vx Gamma s y t) =ᶠ[𝓝 x]
        (fun s => -(Gamma * y) / (2 * Real.pi * (s * s + y * y))) := by
      filter_upwards [(isOpen_lt continuous_const hcont).mem_nhds hr] with s hs
      simp only [VorticePuntual_vx]
      rw [if_neg (not_lt.mpr (le_of_lt hs))]
    have heqy : (fun s => VorticePuntual_vy Gamma x s t) =ᶠ[𝓝 y]
        (fun s => Gamma * x / (2 * Real.pi * (x * x + s * s))) := by
      filter_upwards [(isOpen_lt continuous_const hcont').mem_nhds hr] with s hs
      simp only [VorticePuntual_vy]
      rw [if_neg (not_lt.mpr (le_of_lt hs))]
    refine ⟨_, _, hfx.congr_of_eventuallyEq heqx, hfy.congr_of_eventuallyEq heqy, ?_⟩
    simp only [VorticePuntual_div]
    field_simp
    ring
  · intro Gamma x y t hr
    constructor
    · simp only [VorticePuntual_vx]
      rw [if_pos hr]
    · simp only [VorticePuntual_vy]
      rw [if_pos hr]
  · intro k x y t
    refine ⟨k * 1, k * 1, (hasDerivAt_id x).const_mul k,
      (hasDerivAt_id y).const_mul k, ?_⟩
    simp only [ExpansionRadial_div]
    ring
  · intro a b x y t
    refine ⟨a * 1, a * 1, ((hasDerivAt_id x).const_mul a).sub_const (b * y),
      ((hasDerivAt_id y).const_mul a).const_add (b * x), ?_⟩
    simp only [Espiral_div]
    ring
  · intro A k x y t
    have h1 : HasDerivAt (fun s : ℝ => k * s) (k * 1) x := (hasDerivAt_id x).const_mul k
    have h2 := (Real.hasDerivAt_sin (k * x)).comp x h1
    have h3 := h2.const_mul A
    refine ⟨A * (Real.cos (k * x) * (k * 1)), 0, h3, hasDerivAt_const y 0, ?_⟩
    simp only [OndaCompresion_div]
    ring
  · intro A omega x y t
    exact ⟨0, 0, hasDerivAt_const x (A * Real.sin (omega * t)), hasDerivAt_const y 0, by
      simp [Oscilante_div]⟩

/-- Witness for C1's amended statement: the point-vortex conjunct applied at
Γ = 1, (x, y) = (1, 0), t = 0, strictly outside the guard circle. -/
theorem C1_divergence_matches_witness :
    (1e-4 : ℝ) < 1 * 1 + 0 * 0 ∧
      hasAnalyticDiv (VorticePuntual_vx 1) (VorticePuntual_vy 1)
        (VorticePuntual_div 1 1 0 0) 1 0 0 :=
  ⟨by norm_num, C1_divergence_matches.2.2.2.2.1.1 1 1 0 0 (by norm_num)⟩

end MCON
